import Mathlib

/-!
Verification development for the Switch-configurator repository.

The development shallowly embeds:
* the configuration model (`Switch`, its mutators) and the multi-vendor
  command generator `generate_config` from `main.py`;
* a dictionary-level model (`SwitchD`) of the same mutators, used to prove
  the shape invariant of port entries and totality of the renderer accesses;
* the TFTP upload operation from `tftp_helper.py`, as a function of an
  abstract world deciding the outcome of each effectful step, returning the
  result, the final filesystem/server state and the event trace;
* the serial send thread from `serial_helper.py`, as a function of the
  sequence of values observed when the cooperative cancellation flag is read.

Python dicts keyed by ints are modeled as insertion-ordered association
lists (`dictInsert` mirrors `d[k] = v`: replace in place when the key is
present, append otherwise); iteration order is list order, exactly the
Python dict semantics the generator depends on.
-/

set_option maxRecDepth 20000

namespace SwitchConfigurator

/-- Python `str.lower()` (character-wise lowercase; ASCII in this program).
Stated over the character list so that it evaluates by kernel reduction. -/
def pyLower (s : String) : String := String.mk (s.data.map Char.toLower)

/-- Left-to-right non-overlapping replacement on character lists, fuelled so
that it is structurally recursive (the fuel is the input length, which always
suffices since the needle of interest is nonempty). -/
def pyReplaceFuel (old new : List Char) : Nat → List Char → List Char
  | _, [] => []
  | 0, l => l
  | fuel + 1, c :: rest =>
    if old.isPrefixOf (c :: rest) then
      new ++ pyReplaceFuel old new fuel ((c :: rest).drop old.length)
    else c :: pyReplaceFuel old new fuel rest

/-- Python `s.replace(old, new)` (for a nonempty `old`). -/
def pyReplace (s old new : String) : String :=
  String.mk (pyReplaceFuel old.data new.data s.data.length s.data)

/-- Python truthiness of `settings.get("vlan")`: `None` and `0` are falsy. -/
def pyTruthyNat : Option Nat → Option Nat
  | some 0 => none
  | some (n + 1) => some (n + 1)
  | none => none

/-- Python `",".join(xs)`. -/
def joinComma : List String → String
  | [] => ""
  | [x] => x
  | x :: y :: xs => x ++ "," ++ joinComma (y :: xs)

/-- Lookup in an insertion-ordered int-keyed dict (Python `d.get(k)`). -/
def alookup {α : Type} (k : Nat) : List (Nat × α) → Option α
  | [] => none
  | (k2, v) :: rest => if k2 = k then some v else alookup k rest

/-- Python `d[k] = v` on an insertion-ordered dict: replace in place if the
key exists, append at the end otherwise. -/
def dictInsert {α : Type} (k : Nat) (v : α) : List (Nat × α) → List (Nat × α)
  | [] => [(k, v)]
  | (k2, v2) :: rest =>
    if k2 = k then (k2, v) :: rest else (k2, v2) :: dictInsert k v rest

/-- Port entry as created by `Switch.set_port_config` in `main.py`
(`{"mode": mode, "vlan": vlan, "poe": poe_enabled}`). -/
structure PortCfg where
  mode : String
  vlan : Option Nat
  poe : Bool
deriving DecidableEq, Repr

/-- VLAN interface settings dict (`set_vlan_interface` kwargs); option fields
model key presence, which is what the renderers test with `in` / `.get`. -/
structure VlanIf where
  ip : Option String
  mask : Option String
  shutdown : Bool
  description : Option String
  dhcp_enabled : Bool
deriving DecidableEq, Repr

/-- An entry of `ssh_users` (`{login, password, privilege}`). -/
structure SshUser where
  login : String
  password : String
  privilege : Nat
deriving DecidableEq, Repr

/-- Loaded template (`.sc` JSON): `default_commands` is `some` iff the key is
present; `supports = some o` models a `supports` dict whose `poe` key is `o`. -/
structure Template where
  default_commands : Option (List String)
  supports : Option (Option Bool)
deriving DecidableEq, Repr

/-- `Switch._supports_poe`: `template["supports"].get("poe", False)` when the
`supports` key exists, `False` otherwise. -/
def supportsPoeOf (t : Template) : Bool :=
  match t.supports with
  | some o => o.getD false
  | none => false

/-- In-memory configuration model (`Switch.__init__` state). -/
structure Switch where
  brand : String
  model : String
  hostname : String
  vlans : List (Nat × String)
  ports : List (Nat × PortCfg)
  vlan_interfaces : List (Nat × VlanIf)
  template : Template
  supports_poe : Bool
  snmp_enabled : Bool
  snmp_community : String
  snmp_version : String
  snmp_location : String
  snmp_contact : String
  ssh_enabled : Bool
  ssh_version : String
  ssh_timeout : String
  ssh_auth_retries : String
  ssh_key_auth : Bool
  ssh_users : List SshUser
  stp_enabled : Bool
  stp_mode : String
  stp_priority : String
  stp_portfast : Bool
  stp_bpduguard : Bool
  stp_loopguard : Bool
deriving DecidableEq, Repr

/-- `Switch.__init__(brand, model)` with a loaded template `t`. -/
def Switch.init (brand model : String) (t : Template) : Switch where
  brand := brand
  model := model
  hostname := brand ++ "-" ++ model
  vlans := []
  ports := []
  vlan_interfaces := []
  template := t
  supports_poe := supportsPoeOf t
  snmp_enabled := false
  snmp_community := "public"
  snmp_version := "2c"
  snmp_location := ""
  snmp_contact := ""
  ssh_enabled := false
  ssh_version := "2"
  ssh_timeout := "60"
  ssh_auth_retries := "3"
  ssh_key_auth := false
  ssh_users := []
  stp_enabled := true
  stp_mode := "rapid-pvst"
  stp_priority := "32768"
  stp_portfast := true
  stp_bpduguard := true
  stp_loopguard := false

/-- `Switch.add_vlan(vlan_id, vlan_name)`. -/
def add_vlan (s : Switch) (vid : Nat) (name : String) : Switch :=
  { s with vlans := dictInsert vid name s.vlans }

/-- `Switch.set_port_config(port_number, mode, vlan=None, poe_enabled=False)`. -/
def set_port_config (s : Switch) (p : Nat) (mode : String) (vlan : Option Nat)
    (poe : Bool) : Switch :=
  { s with ports := dictInsert p ⟨mode, vlan, poe⟩ s.ports }

/-- `Switch.set_vlan_interface(vlan_id, **kwargs)`. -/
def set_vlan_interface (s : Switch) (vid : Nat) (vi : VlanIf) : Switch :=
  { s with vlan_interfaces := dictInsert vid vi s.vlan_interfaces }

/-- `Switch.set_hostname(hostname)`. -/
def set_hostname (s : Switch) (h : String) : Switch :=
  { s with hostname := h }

/-- `Switch.set_snmp(enabled, community, version, location, contact)`. -/
def set_snmp (s : Switch) (en : Bool) (community version location contact : String) :
    Switch :=
  { s with snmp_enabled := en, snmp_community := community,
           snmp_version := version, snmp_location := location,
           snmp_contact := contact }

/-- `Switch.set_ssh(enabled, version, timeout, auth_retries, key_auth)`. -/
def set_ssh (s : Switch) (en : Bool) (version timeout retries : String)
    (key : Bool) : Switch :=
  { s with ssh_enabled := en, ssh_version := version, ssh_timeout := timeout,
           ssh_auth_retries := retries, ssh_key_auth := key }

/-- `Switch.set_spanning_tree(enabled, mode, priority, portfast, bpduguard,
loopguard)`. -/
def set_spanning_tree (s : Switch) (en : Bool) (mode priority : String)
    (portfast bpduguard loopguard : Bool) : Switch :=
  { s with stp_enabled := en, stp_mode := mode, stp_priority := priority,
           stp_portfast := portfast, stp_bpduguard := bpduguard,
           stp_loopguard := loopguard }

/-- Template `default_commands` with `{hostname}` substituted, or nothing when
the key is absent (`if "default_commands" in self.template`). -/
def defaultCmdLines (t : Template) (h : String) : List String :=
  match t.default_commands with
  | some cmds => cmds.map (fun c => pyReplace c "\x7bhostname\x7d" h)
  | none => []

/-- Cisco PoE directive: emitted for every port when the switch supports PoE,
polarity given by the port `poe` flag. -/
def ciscoPoeLines (supports poe : Bool) : List String :=
  if supports then
    if poe then [" power inline auto"] else [" power inline never"]
  else []

/-- Cisco mode lines of a port block (`shutdown` / `access` / `trunk` chain). -/
def ciscoModeLines (cfg : PortCfg) : List String :=
  if cfg.mode = "shutdown" then [" shutdown"]
  else if cfg.mode = "access" then
    " switchport mode access" ::
      (match pyTruthyNat cfg.vlan with
       | some v => [" switchport access vlan " ++ toString v]
       | none => [])
  else if cfg.mode = "trunk" then [" switchport mode trunk"]
  else []

/-- One Cisco port block (the body of the `for port, settings` loop). -/
def ciscoPortLines (supports : Bool) (p : Nat) (cfg : PortCfg) : List String :=
  ("interface GigabitEthernet0/" ++ toString p) ::
    (ciscoModeLines cfg ++ ciscoPoeLines supports cfg.poe ++ ["!"])

/-- One Cisco VLAN-interface block. -/
def ciscoVlanIfLines (vid : Nat) (vs : VlanIf) : List String :=
  ("interface Vlan" ++ toString vid) ::
    ((match vs.ip, vs.mask with
      | some ip, some mask => [" ip address " ++ (ip ++ (" " ++ mask))]
      | _, _ => []) ++
     [if vs.shutdown then " shutdown" else " no shutdown"] ++ ["!"])

/-- Cisco spanning-tree block. -/
def ciscoStpLines (s : Switch) : List String :=
  if s.stp_enabled then
    ("spanning-tree mode " ++ s.stp_mode) ::
      (("spanning-tree vlan 1-4094 priority " ++ s.stp_priority) ::
        ((if s.stp_portfast then ["spanning-tree portfast default"] else []) ++
         (if s.stp_bpduguard then ["spanning-tree portfast bpduguard default"] else []) ++
         (if s.stp_loopguard then ["spanning-tree loopguard default"] else [])))
  else ["no spanning-tree"]

/-- Cisco SNMP block (string truthiness of version/location/contact). -/
def ciscoSnmpLines (s : Switch) : List String :=
  if s.snmp_enabled then
    ("snmp-server community " ++ (s.snmp_community ++ " RO")) ::
      ((if s.snmp_version ≠ "" then ["snmp-server enable traps"] else []) ++
       (if s.snmp_location ≠ "" then ["snmp-server location " ++ s.snmp_location] else []) ++
       (if s.snmp_contact ≠ "" then ["snmp-server contact " ++ s.snmp_contact] else []))
  else []

/-- Cisco SSH block, including one `username` line per entry of `ssh_users`. -/
def ciscoSshLines (s : Switch) : List String :=
  if s.ssh_enabled then
    ["ip ssh version " ++ s.ssh_version,
     "ip ssh time-out " ++ s.ssh_timeout,
     "ip ssh authentication-retries " ++ s.ssh_auth_retries,
     "line vty 0 15",
     " transport input ssh"] ++
    [if s.ssh_key_auth then " login" else " login local"] ++
    s.ssh_users.map (fun u =>
      "username " ++ (u.login ++ (" privilege " ++ (toString u.privilege ++
        (" secret " ++ u.password)))))
  else []

/-- The full Cisco branch of `generate_config`, in source order: base lines,
VLANs, ports, VLAN interfaces, template `default_commands`, then spanning
tree, DHCP snooping, SNMP and SSH. -/
def ciscoLines (s : Switch) : List String :=
  ["enable", "configure terminal", "hostname " ++ s.hostname] ++
  s.vlans.flatMap (fun kv => ["vlan " ++ toString kv.1, " name " ++ kv.2, "!"]) ++
  s.ports.flatMap (fun kv => ciscoPortLines s.supports_poe kv.1 kv.2) ++
  s.vlan_interfaces.flatMap (fun kv => ciscoVlanIfLines kv.1 kv.2) ++
  defaultCmdLines s.template s.hostname ++
  ciscoStpLines s ++
  ["ip dhcp snooping", "ip dhcp snooping vlan all"] ++
  ciscoSnmpLines s ++
  ciscoSshLines s

/-- HP PoE directive. -/
def hpPoeLines (supports poe : Bool) : List String :=
  if supports then
    if poe then [" poe enable"] else [" poe disable"]
  else []

/-- HP mode lines of a port block; a trunk port tags every VLAN of the map in
one comma-joined line (`",".join(str(v) for v in self.vlans.keys())`). -/
def hpModeLines (vlans : List (Nat × String)) (cfg : PortCfg) : List String :=
  if cfg.mode = "shutdown" then [" disable"]
  else if cfg.mode = "access" then
    match pyTruthyNat cfg.vlan with
    | some v => [" untagged vlan " ++ toString v]
    | none => []
  else if cfg.mode = "trunk" then
    [" tagged vlan " ++ joinComma (vlans.map (fun kv => toString kv.1))]
  else []

/-- One HP port block. -/
def hpPortLines (vlans : List (Nat × String)) (supports : Bool) (p : Nat)
    (cfg : PortCfg) : List String :=
  ("interface " ++ toString p) ::
    (hpModeLines vlans cfg ++ hpPoeLines supports cfg.poe ++ ["exit"])

/-- The full HP branch of `generate_config`. -/
def hpLines (s : Switch) : List String :=
  ["configure", "hostname " ++ s.hostname] ++
  s.vlans.flatMap (fun kv => ["vlan " ++ toString kv.1, " name " ++ kv.2, "exit"]) ++
  s.ports.flatMap (fun kv => hpPortLines s.vlans s.supports_poe kv.1 kv.2) ++
  s.vlan_interfaces.flatMap (fun kv =>
    ("vlan " ++ toString kv.1) ::
      ((match kv.2.ip, kv.2.mask with
        | some ip, some mask => [" ip address " ++ (ip ++ (" " ++ mask))]
        | _, _ => []) ++ ["exit"])) ++
  defaultCmdLines s.template s.hostname

/-- Juniper interface name of a port (`ge-0/0/<n>`). -/
def juniperIf (p : Nat) : String := "ge-0/0/" ++ toString p

/-- Juniper PoE directive. -/
def juniperPoeLines (supports poe : Bool) (p : Nat) : List String :=
  if supports then
    if poe then ["set poe interface " ++ (juniperIf p ++ " enable")]
    else ["set poe interface " ++ (juniperIf p ++ " disable")]
  else []

/-- Juniper mode lines; a trunk port emits one `vlan members` line per VLAN of
the map, each referring to the VLAN by NAME; an access port resolves the
VLAN name with `self.vlans.get(vlan, "")`. -/
def juniperModeLines (vlans : List (Nat × String)) (p : Nat) (cfg : PortCfg) :
    List String :=
  if cfg.mode = "shutdown" then ["set interfaces " ++ (juniperIf p ++ " disable")]
  else if cfg.mode = "access" then
    match pyTruthyNat cfg.vlan with
    | some v =>
      ["set interfaces " ++ (juniperIf p ++ " unit 0 family ethernet-switching port-mode access"),
       "set interfaces " ++ (juniperIf p ++ (" unit 0 family ethernet-switching vlan members " ++
         (alookup v vlans).getD ""))]
    | none => []
  else if cfg.mode = "trunk" then
    ("set interfaces " ++ (juniperIf p ++ " unit 0 family ethernet-switching port-mode trunk")) ::
      vlans.map (fun kv =>
        "set interfaces " ++ (juniperIf p ++ (" unit 0 family ethernet-switching vlan members " ++ kv.2)))
  else []

/-- One Juniper port block. -/
def juniperPortLines (vlans : List (Nat × String)) (supports : Bool) (p : Nat)
    (cfg : PortCfg) : List String :=
  juniperModeLines vlans p cfg ++ juniperPoeLines supports cfg.poe p

/-- The full Juniper branch of `generate_config`. -/
def juniperLines (s : Switch) : List String :=
  ["configure", "set system host-name " ++ s.hostname] ++
  s.vlans.flatMap (fun kv => ["set vlans " ++ (kv.2 ++ (" vlan-id " ++ toString kv.1))]) ++
  s.ports.flatMap (fun kv => juniperPortLines s.vlans s.supports_poe kv.1 kv.2) ++
  s.vlan_interfaces.flatMap (fun kv =>
    match kv.2.ip, kv.2.mask with
    | some ip, some mask =>
      ["set interfaces irb unit " ++ (toString kv.1 ++ (" family inet address " ++
         (ip ++ ("/" ++ mask)))),
       "set vlans " ++ (((alookup kv.1 s.vlans).getD ("vlan" ++ toString kv.1)) ++
         (" l3-interface irb." ++ toString kv.1))]
    | _, _ => []) ++
  defaultCmdLines s.template s.hostname

/-- Aruba PoE directive. -/
def arubaPoeLines (supports poe : Bool) : List String :=
  if supports then
    if poe then [" poe-max-power 30"] else [" no poe"]
  else []

/-- Aruba mode lines; a trunk port emits one `trunk allowed vlan` line per
VLAN id of the map. -/
def arubaModeLines (vlans : List (Nat × String)) (cfg : PortCfg) : List String :=
  if cfg.mode = "shutdown" then [" disable"]
  else if cfg.mode = "access" then
    match pyTruthyNat cfg.vlan with
    | some v => [" vlan access " ++ toString v]
    | none => []
  else if cfg.mode = "trunk" then
    " trunk" :: vlans.map (fun kv => " trunk allowed vlan " ++ toString kv.1)
  else []

/-- One Aruba port block. -/
def arubaPortLines (vlans : List (Nat × String)) (supports : Bool) (p : Nat)
    (cfg : PortCfg) : List String :=
  ("interface " ++ toString p) ::
    (arubaModeLines vlans cfg ++ arubaPoeLines supports cfg.poe ++ ["exit"])

/-- The full Aruba branch of `generate_config`. -/
def arubaLines (s : Switch) : List String :=
  ["configure", "hostname " ++ s.hostname] ++
  s.vlans.flatMap (fun kv => ["vlan " ++ toString kv.1, " name " ++ kv.2, "exit"]) ++
  s.ports.flatMap (fun kv => arubaPortLines s.vlans s.supports_poe kv.1 kv.2) ++
  s.vlan_interfaces.flatMap (fun kv =>
    ("vlan " ++ toString kv.1) ::
      ((match kv.2.ip, kv.2.mask with
        | some ip, some mask => [" ip address " ++ (ip ++ (" " ++ mask))]
        | _, _ => []) ++ ["exit"])) ++
  defaultCmdLines s.template s.hostname

/-- Alcatel PoE directive (enabling also raises the PoE priority). -/
def alcatelPoeLines (supports poe : Bool) : List String :=
  if supports then
    if poe then
      [" power over-ethernet admin-state enable", " power over-ethernet priority high"]
    else [" power over-ethernet admin-state disable"]
  else []

/-- Alcatel admin-state line: `disable` for shutdown ports, `enable` otherwise
(a separate if/else, not part of the access/trunk chain). -/
def alcatelAdminLines (cfg : PortCfg) : List String :=
  if cfg.mode = "shutdown" then [" admin-state disable"] else [" admin-state enable"]

/-- Alcatel access/trunk lines; a trunk port emits one `vlan <id> port` line
per VLAN id of the map. -/
def alcatelModeLines (vlans : List (Nat × String)) (cfg : PortCfg) : List String :=
  if cfg.mode = "access" then
    match pyTruthyNat cfg.vlan with
    | some v => [" vlan " ++ (toString v ++ " port default")]
    | none => []
  else if cfg.mode = "trunk" then
    " spanning-tree auto-edge-port disable" ::
      vlans.map (fun kv => " vlan " ++ (toString kv.1 ++ " port"))
  else []

/-- One Alcatel port block. -/
def alcatelPortLines (vlans : List (Nat × String)) (supports : Bool) (p : Nat)
    (cfg : PortCfg) : List String :=
  ("interfaces port 1/1/" ++ toString p) ::
    (alcatelAdminLines cfg ++ alcatelModeLines vlans cfg ++
     alcatelPoeLines supports cfg.poe ++ [" exit"])

/-- One Alcatel VLAN-interface block. -/
def alcatelVlanIfLines (vid : Nat) (vs : VlanIf) : List String :=
  ("vlan " ++ toString vid) ::
    ((match vs.ip, vs.mask with
      | some ip, some mask =>
        [" router interface", " address " ++ (ip ++ (" mask " ++ mask))] ++
        [if vs.shutdown then " admin-state disable" else " admin-state enable"] ++
        (match vs.description with
         | some d => if d ≠ "" then [" description \"" ++ (d ++ "\"")] else []
         | none => []) ++
        [" exit"]
      | _, _ => []) ++ [" exit"])

/-- Alcatel SNMP block. -/
def alcatelSnmpLines (s : Switch) : List String :=
  if s.snmp_enabled then
    ("snmp community map " ++ (s.snmp_community ++ " user \"admin\" on")) ::
      ((if s.snmp_location ≠ "" then
          ["snmp system location \"" ++ (s.snmp_location ++ "\"")] else []) ++
       (if s.snmp_contact ≠ "" then
          ["snmp system contact \"" ++ (s.snmp_contact ++ "\"")] else []))
  else []

/-- Alcatel SSH block. -/
def alcatelSshLines (s : Switch) : List String :=
  if s.ssh_enabled then
    ["ip service ssh",
     "ip service ssh version v" ++ s.ssh_version,
     "ip service ssh timeout " ++ s.ssh_timeout]
  else ["no ip service ssh"]

/-- Alcatel STP mode translation (`mode_map.get(self.stp_mode, "rstp")`). -/
def alcatelStpMode (m : String) : String :=
  if m = "rapid-pvst" then "rstp"
  else if m = "pvst" then "flat"
  else if m = "mst" then "mstp"
  else "rstp"

/-- Alcatel spanning-tree block. -/
def alcatelStpLines (s : Switch) : List String :=
  if s.stp_enabled then
    ["spanning-tree admin-state enable",
     "spanning-tree mode " ++ alcatelStpMode s.stp_mode,
     "spanning-tree priority " ++ s.stp_priority] ++
    (if s.stp_portfast then ["spanning-tree auto-edge-port enable"] else []) ++
    (if s.stp_bpduguard then ["spanning-tree bpdu-guard enable"] else [])
  else ["spanning-tree admin-state disable"]

/-- The full Alcatel branch of `generate_config`: base lines, VLANs, ports,
VLAN interfaces, SNMP, SSH, spanning tree, then template `default_commands`
at the very end. -/
def alcatelLines (s : Switch) : List String :=
  ["configure terminal", "system name " ++ s.hostname] ++
  s.vlans.flatMap (fun kv =>
    ["vlan " ++ toString kv.1, " name \"" ++ (kv.2 ++ "\""), " exit"]) ++
  s.ports.flatMap (fun kv => alcatelPortLines s.vlans s.supports_poe kv.1 kv.2) ++
  s.vlan_interfaces.flatMap (fun kv => alcatelVlanIfLines kv.1 kv.2) ++
  alcatelSnmpLines s ++
  alcatelSshLines s ++
  alcatelStpLines s ++
  defaultCmdLines s.template s.hostname

/-- `Switch.generate_config`, as the ordered list of emitted lines: a
case-insensitive dispatch on `brand` over the five vendor renderers; any
other brand leaves the line list empty. -/
def generate_config (s : Switch) : List String :=
  if pyLower s.brand = "cisco" then ciscoLines s
  else if pyLower s.brand = "hp" then hpLines s
  else if pyLower s.brand = "juniper" then juniperLines s
  else if pyLower s.brand = "aruba" then arubaLines s
  else if pyLower s.brand = "alcatel" then alcatelLines s
  else []

/-- The final `"\n".join(config)` of `generate_config`. -/
def generate_config_text (s : Switch) : String :=
  String.intercalate "\n" (generate_config s)

/-! Dictionary-level model of the mutators.  Python dict values are untyped;
port entries and ssh-user entries are kept here as string-keyed association
lists, exactly as `set_port_config` builds them, so that the key-set shape is
something to be PROVED rather than imposed by the embedding types. -/

/-- An untyped Python value stored in a port or user entry. -/
inductive PVal where
  | s (v : String)
  | v (o : Option Nat)
  | b (x : Bool)
  | n (x : Nat)
deriving DecidableEq, Repr

/-- A port entry as a raw string-keyed dict. -/
abbrev PortEntry := List (String × PVal)

/-- The dict literal `{"mode": mode, "vlan": vlan, "poe": poe_enabled}`. -/
def portEntryOf (mode : String) (vlan : Option Nat) (poe : Bool) : PortEntry :=
  [("mode", PVal.s mode), ("vlan", PVal.v vlan), ("poe", PVal.b poe)]

/-- An `ssh_users` element as a raw string-keyed dict. -/
abbrev UserEntry := List (String × PVal)

/-- Lookup in a string-keyed dict (`d.get(k)` / presence for `d[k]`). -/
def slookup (k : String) : List (String × PVal) → Option PVal
  | [] => none
  | (k2, v) :: rest => if k2 = k then some v else slookup k rest

/-- Dict-level switch state: same scalar fields as `Switch`, but the port map
holds raw entries and `ssh_users` raw user dicts. -/
structure SwitchD where
  brand : String
  model : String
  hostname : String
  vlans : List (Nat × String)
  ports : List (Nat × PortEntry)
  vlan_interfaces : List (Nat × VlanIf)
  template : Template
  supports_poe : Bool
  snmp_enabled : Bool
  snmp_community : String
  snmp_version : String
  snmp_location : String
  snmp_contact : String
  ssh_enabled : Bool
  ssh_version : String
  ssh_timeout : String
  ssh_auth_retries : String
  ssh_key_auth : Bool
  ssh_users : List UserEntry
  stp_enabled : Bool
  stp_mode : String
  stp_priority : String
  stp_portfast : Bool
  stp_bpduguard : Bool
  stp_loopguard : Bool
deriving DecidableEq, Repr

/-- `Switch.__init__` at the dict level. -/
def SwitchD.init (brand model : String) (t : Template) : SwitchD where
  brand := brand
  model := model
  hostname := brand ++ "-" ++ model
  vlans := []
  ports := []
  vlan_interfaces := []
  template := t
  supports_poe := supportsPoeOf t
  snmp_enabled := false
  snmp_community := "public"
  snmp_version := "2c"
  snmp_location := ""
  snmp_contact := ""
  ssh_enabled := false
  ssh_version := "2"
  ssh_timeout := "60"
  ssh_auth_retries := "3"
  ssh_key_auth := false
  ssh_users := []
  stp_enabled := true
  stp_mode := "rapid-pvst"
  stp_priority := "32768"
  stp_portfast := true
  stp_bpduguard := true
  stp_loopguard := false

/-- `add_vlan` at the dict level. -/
def SwitchD.add_vlan (s : SwitchD) (vid : Nat) (name : String) : SwitchD :=
  { s with vlans := dictInsert vid name s.vlans }

/-- `set_port_config` at the dict level: stores the three-key dict literal. -/
def SwitchD.set_port_config (s : SwitchD) (p : Nat) (mode : String)
    (vlan : Option Nat) (poe : Bool) : SwitchD :=
  { s with ports := dictInsert p (portEntryOf mode vlan poe) s.ports }

/-- `set_vlan_interface` at the dict level. -/
def SwitchD.set_vlan_interface (s : SwitchD) (vid : Nat) (vi : VlanIf) : SwitchD :=
  { s with vlan_interfaces := dictInsert vid vi s.vlan_interfaces }

/-- `set_hostname` at the dict level. -/
def SwitchD.set_hostname (s : SwitchD) (h : String) : SwitchD :=
  { s with hostname := h }

/-- `set_snmp` at the dict level. -/
def SwitchD.set_snmp (s : SwitchD) (en : Bool)
    (community version location contact : String) : SwitchD :=
  { s with snmp_enabled := en, snmp_community := community,
           snmp_version := version, snmp_location := location,
           snmp_contact := contact }

/-- `set_ssh` at the dict level (note: it does not touch `ssh_users`). -/
def SwitchD.set_ssh (s : SwitchD) (en : Bool) (version timeout retries : String)
    (key : Bool) : SwitchD :=
  { s with ssh_enabled := en, ssh_version := version, ssh_timeout := timeout,
           ssh_auth_retries := retries, ssh_key_auth := key }

/-- `set_spanning_tree` at the dict level. -/
def SwitchD.set_spanning_tree (s : SwitchD) (en : Bool) (mode priority : String)
    (portfast bpduguard loopguard : Bool) : SwitchD :=
  { s with stp_enabled := en, stp_mode := mode, stp_priority := priority,
           stp_portfast := portfast, stp_bpduguard := bpduguard,
           stp_loopguard := loopguard }

/-- States reachable from a freshly constructed switch through the model
mutators (the seven setter operations of the `Switch` class). -/
inductive ReachableD : SwitchD → Prop where
  | init (brand model : String) (t : Template) : ReachableD (SwitchD.init brand model t)
  | add_vlan {s : SwitchD} (h : ReachableD s) (vid : Nat) (name : String) :
      ReachableD (s.add_vlan vid name)
  | set_port_config {s : SwitchD} (h : ReachableD s) (p : Nat) (mode : String)
      (vlan : Option Nat) (poe : Bool) : ReachableD (s.set_port_config p mode vlan poe)
  | set_vlan_interface {s : SwitchD} (h : ReachableD s) (vid : Nat) (vi : VlanIf) :
      ReachableD (s.set_vlan_interface vid vi)
  | set_hostname {s : SwitchD} (h : ReachableD s) (hn : String) :
      ReachableD (s.set_hostname hn)
  | set_snmp {s : SwitchD} (h : ReachableD s)
      (en : Bool) (community version location contact : String) :
      ReachableD (s.set_snmp en community version location contact)
  | set_ssh {s : SwitchD} (h : ReachableD s) (en : Bool)
      (version timeout retries : String) (key : Bool) :
      ReachableD (s.set_ssh en version timeout retries key)
  | set_spanning_tree {s : SwitchD} (h : ReachableD s) (en : Bool)
      (mode priority : String) (portfast bpduguard loopguard : Bool) :
      ReachableD (s.set_spanning_tree en mode priority portfast bpduguard loopguard)

/-- The renderer accesses to one port entry: `settings["mode"]` (raises
`KeyError` when absent, modeled as `none`), `settings.get("vlan")` and
`settings.get("poe", False)` (total, with Python defaults). -/
def decodePortEntry (e : PortEntry) : Option PortCfg :=
  match slookup "mode" e with
  | some (PVal.s m) =>
    some { mode := m,
           vlan := match slookup "vlan" e with
                   | some (PVal.v o) => o
                   | _ => none,
           poe := match slookup "poe" e with
                  | some (PVal.b x) => x
                  | _ => false }
  | _ => none

/-- Decode every port entry of the map; `none` as soon as one access fails. -/
def decodePorts : List (Nat × PortEntry) → Option (List (Nat × PortCfg))
  | [] => some []
  | (p, e) :: rest =>
    match decodePortEntry e, decodePorts rest with
    | some c, some cs => some ((p, c) :: cs)
    | _, _ => none

/-- The Cisco SSH renderer accesses to one user dict: `user["login"]`,
`user["privilege"]`, `user["password"]` (each raises when absent). -/
def decodeUser (u : UserEntry) : Option SshUser :=
  match slookup "login" u, slookup "password" u, slookup "privilege" u with
  | some (PVal.s l), some (PVal.s pw), some (PVal.n pr) =>
    some { login := l, password := pw, privilege := pr }
  | _, _, _ => none

/-- Decode every `ssh_users` entry. -/
def decodeUsers : List UserEntry → Option (List SshUser)
  | [] => some []
  | u :: rest =>
    match decodeUser u, decodeUsers rest with
    | some su, some sus => some (su :: sus)
    | _, _ => none

/-- Perform every partial (exception-raising) dictionary access the five
renderers make on a dict-level state; `some` exactly when none of them would
raise, yielding the structural state `generate_config` runs on. -/
def decodeSwitch (sd : SwitchD) : Option Switch :=
  match decodePorts sd.ports, decodeUsers sd.ssh_users with
  | some ps, some us =>
    some { brand := sd.brand, model := sd.model, hostname := sd.hostname,
           vlans := sd.vlans, ports := ps,
           vlan_interfaces := sd.vlan_interfaces, template := sd.template,
           supports_poe := sd.supports_poe,
           snmp_enabled := sd.snmp_enabled, snmp_community := sd.snmp_community,
           snmp_version := sd.snmp_version, snmp_location := sd.snmp_location,
           snmp_contact := sd.snmp_contact,
           ssh_enabled := sd.ssh_enabled, ssh_version := sd.ssh_version,
           ssh_timeout := sd.ssh_timeout, ssh_auth_retries := sd.ssh_auth_retries,
           ssh_key_auth := sd.ssh_key_auth, ssh_users := us,
           stp_enabled := sd.stp_enabled, stp_mode := sd.stp_mode,
           stp_priority := sd.stp_priority, stp_portfast := sd.stp_portfast,
           stp_bpduguard := sd.stp_bpduguard, stp_loopguard := sd.stp_loopguard }
  | _, _ => none

/-! Model of `upload_config_via_tftp` (`tftp_helper.py`).  The outcome of
each effectful step is decided by an abstract `TftpWorld`; the function
returns the Python return value, the final state of the staging directory,
staging file and server thread, and the ordered trace of performed
filesystem/network operations. -/

/-- The effectful steps `upload_config_via_tftp` can perform, in trace order:
`mkdtemp` (creation of the staging directory), the UDP connectivity probe,
the write of the staging file, server thread start and stop, the client
upload attempt, and the successful removals of the staging file/directory. -/
inductive TftpEvent where
  | mkdtemp
  | probe
  | writeFile
  | serverStart
  | uploadTry
  | serverStop
  | removeFile
  | rmdir
deriving DecidableEq, Repr

/-- Outcome of the bounded poll for server readiness (success flag set,
error message set, or five seconds elapsed). -/
inductive ServerOutcome where
  | ready
  | errored (msg : String)
  | timedOut
deriving DecidableEq, Repr

/-- Environment of one `upload_config_via_tftp` invocation. -/
structure TftpWorld where
  tftp_available : Bool
  switch_ip : String
  reachable : Bool
  write_ok : Bool
  server : ServerOutcome
  upload_ok : Bool
  upload_err : String
deriving DecidableEq, Repr

/-- Final state of the external resources owned by one invocation. -/
structure TftpFs where
  dirExists : Bool
  fileExists : Bool
  serverRunning : Bool
deriving DecidableEq, Repr

/-- Result of one invocation: the returned `(success, message)` pair, the
final resource state, and the event trace. -/
structure TftpRun where
  result : Bool × String
  fs : TftpFs
  trace : List TftpEvent
deriving DecidableEq, Repr

/-- `upload_config_via_tftp(config_text, switch_ip, ...)`.  Control flow
mirrors the source: availability guard; `tempfile.mkdtemp()`; then the `try`
block (connectivity probe, staging write, server start and readiness poll,
client upload) and the `finally` block (server stop when the `server` local
exists, then one `try: os.remove(config_path); os.rmdir(temp_dir) except:
pass` — so when the staging file was never written, `os.remove` raises and
`os.rmdir` is skipped, leaving the directory behind). -/
def upload_config_via_tftp (w : TftpWorld) : TftpRun :=
  if w.tftp_available = false then
    { result := (false, "Module TFTP non disponible. Installez tftpy avec \x27pip install tftpy\x27."),
      fs := ⟨false, false, false⟩, trace := [] }
  else if w.reachable = false then
    -- return inside try; finally: no server local, os.remove raises, rmdir skipped
    { result := (false, "Le switch " ++ (w.switch_ip ++ " n\x27est pas accessible. Vérifiez la connexion.")),
      fs := ⟨true, false, false⟩, trace := [.mkdtemp, .probe] }
  else if w.write_ok = false then
    -- exception while writing, caught by the outer `except Exception`
    { result := (false, "Erreur lors de l\x27envoi via TFTP: exception"),
      fs := ⟨true, false, false⟩, trace := [.mkdtemp, .probe] }
  else
    match w.server with
    | .errored m =>
      { result := (false, m), fs := ⟨false, false, false⟩,
        trace := [.mkdtemp, .probe, .writeFile, .serverStart, .serverStop, .removeFile, .rmdir] }
    | .timedOut =>
      { result := (false, "Le serveur TFTP n\x27a pas pu démarrer dans le délai imparti."),
        fs := ⟨false, false, false⟩,
        trace := [.mkdtemp, .probe, .writeFile, .serverStart, .serverStop, .removeFile, .rmdir] }
    | .ready =>
      { result :=
          if w.upload_ok then
            (true, "Configuration envoyée avec succès à " ++ (w.switch_ip ++ " via TFTP."))
          else (false, "Erreur TFTP: " ++ w.upload_err),
        fs := ⟨false, false, false⟩,
        trace := [.mkdtemp, .probe, .writeFile, .serverStart, .uploadTry, .serverStop,
                  .removeFile, .rmdir] }

/-! Model of `SerialConfigSender._send_config_thread` (`serial_helper.py`).
The loop writes one line, then between lines reads the cooperative flag
`self.is_sending`; `obs i` is the value returned by the i-th read of that
flag (reads happen at line boundaries only — a line in flight is fully
written before the next read).  After the loop the completion check
`if self.on_completed and self.is_sending` performs one more read.  Device
I/O is modeled as non-failing; an I/O exception would only end the loop
earlier, again without invoking the completion callback. -/

/-- The send loop: returns the list of lines actually written to the serial
port and whether the completion callback was invoked. -/
def sendFrom : List String → (Nat → Bool) → List String × Bool
  | [], obs => ([], obs 0)
  | l :: ls, obs =>
    if obs 0 then
      let r := sendFrom ls (fun j => obs (j + 1))
      (l :: r.1, r.2)
    else ([], obs 1)

/-- `_send_config_thread(config_text, line_delay)` on the line list
`config_text.splitlines()`, with `obs` the successive values read from the
`is_sending` flag. -/
def send_config_thread (lines : List String) (obs : Nat → Bool) :
    List String × Bool :=
  sendFrom lines obs

/-! Concrete instances used by counterexamples and witnesses. -/

/-- Empty template (failed or absent template file: `self.template = {}`). -/
def tEmpty : Template := ⟨none, none⟩

/-- Scenario switch of the spec: Cisco, VLAN 10 "Data", port 1 access/vlan 10,
PoE unsupported. -/
def sC9 : Switch :=
  set_port_config (add_vlan (Switch.init "cisco" "2960" tEmpty) 10 "Data")
    1 "access" (some 10) false

/-- A Cisco switch whose template carries one default command. -/
def sC3 : Switch := Switch.init "cisco" "c2960" ⟨some ["ntp server 10.0.0.1"], none⟩

/-- VLAN map with a single VLAN whose name shares no digit with its id. -/
def c4vlans : List (Nat × String) := [(10, "Data")]

/-- A trunk-mode port entry. -/
def c4cfg : PortCfg := ⟨"trunk", none, false⟩

/-- TFTP world where the module is available but the connectivity probe to
the target fails. -/
def wProbeFail : TftpWorld :=
  ⟨true, "192.0.2.1", false, true, ServerOutcome.ready, true, ""⟩

/-- Dict-level state reached by one `set_port_config` on a fresh switch of an
unrecognized brand. -/
def sdC6 : SwitchD :=
  (SwitchD.init "brocade" "icx" tEmpty).set_port_config 1 "access" (some 10) false

/-- Dict-level state reached by `add_vlan` then `set_port_config`. -/
def sdC10 : SwitchD :=
  ((SwitchD.init "cisco" "c2960" tEmpty).add_vlan 10 "Data").set_port_config
    2 "trunk" none true

/-! Helper lemmas. -/

/-- Two prefixes of equal length of the same character list are equal. -/
theorem prefix_unique {s : List Char} {a b : String}
    (ha : a.data <+: s) (hb : b.data <+: s)
    (hlen : a.data.length = b.data.length) : a.data = b.data := by
  rw [List.prefix_iff_eq_take.mp ha, List.prefix_iff_eq_take.mp hb, hlen]

/-- Strings with distinct same-length prefixes are distinct. -/
theorem ne_of_distinct_heads {s t : String} (a b : String)
    (ha : a.data <+: s.data) (hb : b.data <+: t.data)
    (hlen : a.data.length = b.data.length) (hab : a.data ≠ b.data) : s ≠ t := by
  intro h
  exact hab (prefix_unique (h ▸ ha) hb hlen)

/-- A prefix of a literal is a prefix of anything the literal is appended to. -/
theorem prefix_lit_append {a : String} (b x : String) (h : a.data <+: b.data) :
    a.data <+: (b ++ x).data := by
  rw [String.data_append]
  exact h.trans (List.prefix_append _ _)

/-- Appending different strings to the same string gives different strings. -/
theorem append_right_ne {a : String} {x y : String} (h : x ≠ y) : a ++ x ≠ a ++ y := by
  intro he
  apply h
  apply String.ext
  have hd := congrArg String.data he
  rw [String.data_append, String.data_append] at hd
  exact List.append_cancel_left hd

/-- The updated binding is in the dict after `d[k] = v`. -/
theorem mem_dictInsert_self {α : Type} (k : Nat) (v : α) (l : List (Nat × α)) :
    (k, v) ∈ dictInsert k v l := by
  induction l with
  | nil => simp [dictInsert]
  | cons kv rest ih =>
    obtain ⟨k2, v2⟩ := kv
    by_cases h : k2 = k
    · subst h
      simp [dictInsert]
    · simp only [dictInsert, if_neg h]
      exact List.mem_cons_of_mem _ ih

/-- Any binding of `d[k] = v` carries either the new value or an old binding. -/
theorem mem_dictInsert {α : Type} {k p : Nat} {v e : α} {l : List (Nat × α)}
    (h : (p, e) ∈ dictInsert k v l) : e = v ∨ (p, e) ∈ l := by
  induction l with
  | nil =>
    simp [dictInsert] at h
    exact Or.inl h.2
  | cons kv rest ih =>
    obtain ⟨k2, v2⟩ := kv
    by_cases hk : k2 = k
    · subst hk
      simp only [dictInsert, if_pos rfl] at h
      rcases List.mem_cons.mp h with h | h
      · exact Or.inl (congrArg Prod.snd h)
      · exact Or.inr (List.mem_cons_of_mem _ h)
    · simp only [dictInsert, if_neg hk] at h
      rcases List.mem_cons.mp h with h | h
      · exact Or.inr (h ▸ List.mem_cons_self _ _)
      · rcases ih h with h2 | h2
        · exact Or.inl h2
        · exact Or.inr (List.mem_cons_of_mem _ h2)

/-- A member of a comma-joined list occurs inside the joined string. -/
theorem infix_joinComma (x : String) :
    ∀ xs : List String, x ∈ xs → x.data <:+: (joinComma xs).data := by
  intro xs
  induction xs with
  | nil => intro h; cases h
  | cons y ys ih =>
    intro h
    cases ys with
    | nil =>
      rcases List.mem_cons.mp h with h | h
      · subst h
        exact List.infix_refl _
      · cases h
    | cons z rest =>
      rcases List.mem_cons.mp h with h | h
      · subst h
        show x.data <:+: (x ++ "," ++ joinComma (z :: rest)).data
        rw [String.data_append, String.data_append, List.append_assoc]
        exact (List.prefix_append _ _).isInfix
      · have hx := ih h
        show x.data <:+: (y ++ "," ++ joinComma (z :: rest)).data
        rw [String.data_append]
        exact hx.trans (List.suffix_append _ _).isInfix

/-- A line emitted for one VLAN of the map is in the flat-mapped VLAN segment. -/
theorem mem_flatMap_of_pair (x : String) (f : Nat × String → List String)
    {vlans : List (Nat × String)} {vid : Nat} {name : String}
    (hv : (vid, name) ∈ vlans) (hx : x ∈ f (vid, name)) : x ∈ vlans.flatMap f :=
  List.mem_flatMap.mpr ⟨_, hv, hx⟩

/-- Every port entry of a reachable dict-level state is the three-key dict
literal built by `set_port_config`. -/
theorem reachable_ports_shape {sd : SwitchD} (h : ReachableD sd) :
    ∀ p e, (p, e) ∈ sd.ports → ∃ m v b, e = portEntryOf m v b := by
  induction h with
  | init brand model t => intro p e he; cases he
  | add_vlan h vid name ih => exact ih
  | set_port_config h p0 mode vlan poe ih =>
    intro p e he
    rcases mem_dictInsert he with he2 | he2
    · exact ⟨mode, vlan, poe, he2⟩
    · exact ih p e he2
  | set_vlan_interface h vid vi ih => exact ih
  | set_hostname h hn ih => exact ih
  | set_snmp h en community version location contact ih => exact ih
  | set_ssh h en version timeout retries key ih => exact ih
  | set_spanning_tree h en mode priority portfast bpduguard loopguard ih => exact ih

/-- No model mutator ever adds an SSH user: `ssh_users` stays empty on every
reachable state (the class only initializes it to `[]`; `set_ssh` does not
touch it). -/
theorem reachable_users_nil {sd : SwitchD} (h : ReachableD sd) :
    sd.ssh_users = [] := by
  induction h with
  | init brand model t => rfl
  | add_vlan h vid name ih => exact ih
  | set_port_config h p0 mode vlan poe ih => exact ih
  | set_vlan_interface h vid vi ih => exact ih
  | set_hostname h hn ih => exact ih
  | set_snmp h en community version location contact ih => exact ih
  | set_ssh h en version timeout retries key ih => exact ih
  | set_spanning_tree h en mode priority portfast bpduguard loopguard ih => exact ih

/-- Decoding the dict literal of `set_port_config` always succeeds. -/
theorem decodePortEntry_portEntryOf (m : String) (v : Option Nat) (b : Bool) :
    decodePortEntry (portEntryOf m v b) = some ⟨m, v, b⟩ := rfl

/-- Decoding a port map of well-shaped entries succeeds. -/
theorem decodePorts_isSome {l : List (Nat × PortEntry)}
    (hl : ∀ p e, (p, e) ∈ l → ∃ m v b, e = portEntryOf m v b) :
    ∃ ps, decodePorts l = some ps := by
  induction l with
  | nil => exact ⟨[], rfl⟩
  | cons kv rest ih =>
    obtain ⟨p, e⟩ := kv
    obtain ⟨m, v, b, rfl⟩ := hl p e (List.mem_cons_self _ _)
    obtain ⟨ps, hps⟩ := ih (fun p2 e2 he2 => hl p2 e2 (List.mem_cons_of_mem _ he2))
    exact ⟨(p, ⟨m, v, b⟩) :: ps, by simp [decodePorts, decodePortEntry_portEntryOf, hps]⟩

/-- Cooperative cancellation of the serial send loop: if the flag never flips
back to true once read as false (it is only ever cleared, by `cancel()` or
loop exit), the first false read at position `k` stops the transfer with
exactly the first `k` lines written and no completion callback. -/
theorem sendFrom_cancelled :
    ∀ (lines : List String) (obs : Nat → Bool) (k : Nat),
      (∀ i, obs (i + 1) = true → obs i = true) →
      (∀ i, i < k → obs i = true) →
      obs k = false →
      k ≤ lines.length →
      sendFrom lines obs = (lines.take k, false) := by
  intro lines
  induction lines with
  | nil =>
    intro obs k hmono hbefore hk hlen
    have hk0 : k = 0 := Nat.le_zero.mp hlen
    subst hk0
    simp [sendFrom, hk]
  | cons l ls ih =>
    intro obs k hmono hbefore hk hlen
    cases k with
    | zero =>
      have h1 : obs 1 = false := by
        cases h1 : obs 1 with
        | false => rfl
        | true => exact absurd (hmono 0 h1) (by simp [hk])
      simp [sendFrom, hk, h1]
    | succ m =>
      have h0 : obs 0 = true := hbefore 0 (Nat.succ_pos m)
      have hrec : sendFrom ls (fun j => obs (j + 1)) = (ls.take m, false) := by
        apply ih
        · intro i hi
          exact hmono (i + 1) hi
        · intro i hi
          exact hbefore (i + 1) (Nat.succ_lt_succ hi)
        · exact hk
        · exact Nat.le_of_succ_le_succ hlen
      simp [sendFrom, h0, hrec]

/-- Every Cisco mode line is one of the four shapes emitted by the
shutdown/access/trunk chain. -/
theorem ciscoModeLines_shape (cfg : PortCfg) :
    ∀ l ∈ ciscoModeLines cfg,
      l = " shutdown" ∨ l = " switchport mode access" ∨ l = " switchport mode trunk" ∨
      ∃ v : Nat, l = " switchport access vlan " ++ toString v := by
  intro l hl
  unfold ciscoModeLines at hl
  split_ifs at hl
  · simp only [List.mem_singleton] at hl
    exact Or.inl hl
  · rcases List.mem_cons.mp hl with h | h
    · exact Or.inr (Or.inl h)
    · rcases hv : pyTruthyNat cfg.vlan with _ | v <;> rw [hv] at h
      · cases h
      · simp only [List.mem_singleton] at h
        exact Or.inr (Or.inr (Or.inr ⟨v, h⟩))
  · simp only [List.mem_singleton] at hl
    exact Or.inr (Or.inr (Or.inl hl))
  · cases hl

/-- Neither Cisco PoE directive ever occurs among the mode lines. -/
theorem cisco_poe_notin_mode (cfg : PortCfg) (x : String)
    (hx : x = " power inline auto" ∨ x = " power inline never") :
    x ∉ ciscoModeLines cfg := by
  intro hmem
  rcases ciscoModeLines_shape cfg x hmem with h | h | h | ⟨v, h⟩ <;>
    rcases hx with rfl | rfl <;>
    first
      | exact absurd h (by decide)
      | exact absurd h
          (ne_of_distinct_heads " p" " s" (by decide)
            (prefix_lit_append _ _ (by decide)) (by decide) (by decide))

/-- Membership of the Cisco PoE directives in the PoE segment. -/
theorem ciscoPoeLines_mem (supports poe : Bool) :
    ((" power inline auto" ∈ ciscoPoeLines supports poe) ↔ (supports = true ∧ poe = true)) ∧
    ((" power inline never" ∈ ciscoPoeLines supports poe) ↔ (supports = true ∧ poe = false)) := by
  cases supports <;> cases poe <;> simp [ciscoPoeLines]

/-- Flattened membership in a Cisco port block. -/
theorem ciscoPortLines_mem_iff (supports : Bool) (p : Nat) (cfg : PortCfg) (x : String) :
    x ∈ ciscoPortLines supports p cfg ↔
      (x = "interface GigabitEthernet0/" ++ toString p ∨ x ∈ ciscoModeLines cfg ∨
       x ∈ ciscoPoeLines supports cfg.poe ∨ x = "!") := by
  unfold ciscoPortLines
  simp [List.mem_cons, List.mem_append, or_assoc]

/-- A Cisco PoE directive is in the port block iff PoE is supported and the
port flag has the matching polarity. -/
theorem cisco_poe_block_iff (supports : Bool) (p : Nat) (cfg : PortCfg) :
    ((" power inline auto" ∈ ciscoPortLines supports p cfg) ↔
      (supports = true ∧ cfg.poe = true)) ∧
    ((" power inline never" ∈ ciscoPortLines supports p cfg) ↔
      (supports = true ∧ cfg.poe = false)) := by
  have hhead : ∀ x : String, x = " power inline auto" ∨ x = " power inline never" →
      x ≠ "interface GigabitEthernet0/" ++ toString p := by
    rintro x (rfl | rfl) <;>
      exact ne_of_distinct_heads " " "i" (by decide)
        (prefix_lit_append _ _ (by decide)) (by decide) (by decide)
  constructor
  · rw [ciscoPortLines_mem_iff]
    constructor
    · rintro (h | h | h | h)
      · exact absurd h (hhead _ (Or.inl rfl))
      · exact absurd h (cisco_poe_notin_mode cfg _ (Or.inl rfl))
      · exact (ciscoPoeLines_mem supports cfg.poe).1.mp h
      · exact absurd h (by decide)
    · intro hs
      exact Or.inr (Or.inr (Or.inl ((ciscoPoeLines_mem supports cfg.poe).1.mpr hs)))
  · rw [ciscoPortLines_mem_iff]
    constructor
    · rintro (h | h | h | h)
      · exact absurd h (hhead _ (Or.inr rfl))
      · exact absurd h (cisco_poe_notin_mode cfg _ (Or.inr rfl))
      · exact (ciscoPoeLines_mem supports cfg.poe).2.mp h
      · exact absurd h (by decide)
    · intro hs
      exact Or.inr (Or.inr (Or.inl ((ciscoPoeLines_mem supports cfg.poe).2.mpr hs)))

/-- Every HP mode line is one of the three shapes of the chain. -/
theorem hpModeLines_shape (vlans : List (Nat × String)) (cfg : PortCfg) :
    ∀ l ∈ hpModeLines vlans cfg,
      l = " disable" ∨ (∃ v : Nat, l = " untagged vlan " ++ toString v) ∨
      ∃ t : String, l = " tagged vlan " ++ t := by
  intro l hl
  unfold hpModeLines at hl
  split_ifs at hl
  · simp only [List.mem_singleton] at hl
    exact Or.inl hl
  · rcases hv : pyTruthyNat cfg.vlan with _ | v <;> rw [hv] at hl
    · cases hl
    · simp only [List.mem_singleton] at hl
      exact Or.inr (Or.inl ⟨v, hl⟩)
  · simp only [List.mem_singleton] at hl
    exact Or.inr (Or.inr ⟨_, hl⟩)
  · cases hl

/-- Neither HP PoE directive ever occurs among the mode lines. -/
theorem hp_poe_notin_mode (vlans : List (Nat × String)) (cfg : PortCfg) (x : String)
    (hx : x = " poe enable" ∨ x = " poe disable") : x ∉ hpModeLines vlans cfg := by
  intro hmem
  rcases hpModeLines_shape vlans cfg x hmem with h | ⟨v, h⟩ | ⟨t, h⟩ <;>
    rcases hx with rfl | rfl
  · exact absurd h (by decide)
  · exact absurd h (by decide)
  · exact absurd h
      (ne_of_distinct_heads " p" " u" (by decide)
        (prefix_lit_append _ _ (by decide)) (by decide) (by decide))
  · exact absurd h
      (ne_of_distinct_heads " p" " u" (by decide)
        (prefix_lit_append _ _ (by decide)) (by decide) (by decide))
  · exact absurd h
      (ne_of_distinct_heads " p" " t" (by decide)
        (prefix_lit_append _ _ (by decide)) (by decide) (by decide))
  · exact absurd h
      (ne_of_distinct_heads " p" " t" (by decide)
        (prefix_lit_append _ _ (by decide)) (by decide) (by decide))

/-- Membership of the HP PoE directives in the PoE segment. -/
theorem hpPoeLines_mem (supports poe : Bool) :
    ((" poe enable" ∈ hpPoeLines supports poe) ↔ (supports = true ∧ poe = true)) ∧
    ((" poe disable" ∈ hpPoeLines supports poe) ↔ (supports = true ∧ poe = false)) := by
  cases supports <;> cases poe <;> simp [hpPoeLines]

/-- Flattened membership in an HP port block. -/
theorem hpPortLines_mem_iff (vlans : List (Nat × String)) (supports : Bool)
    (p : Nat) (cfg : PortCfg) (x : String) :
    x ∈ hpPortLines vlans supports p cfg ↔
      (x = "interface " ++ toString p ∨ x ∈ hpModeLines vlans cfg ∨
       x ∈ hpPoeLines supports cfg.poe ∨ x = "exit") := by
  unfold hpPortLines
  simp [List.mem_cons, List.mem_append, or_assoc]

/-- An HP PoE directive is in the port block iff PoE is supported and the
port flag has the matching polarity. -/
theorem hp_poe_block_iff (vlans : List (Nat × String)) (supports : Bool)
    (p : Nat) (cfg : PortCfg) :
    ((" poe enable" ∈ hpPortLines vlans supports p cfg) ↔
      (supports = true ∧ cfg.poe = true)) ∧
    ((" poe disable" ∈ hpPortLines vlans supports p cfg) ↔
      (supports = true ∧ cfg.poe = false)) := by
  have hhead : ∀ x : String, x = " poe enable" ∨ x = " poe disable" →
      x ≠ "interface " ++ toString p := by
    rintro x (rfl | rfl) <;>
      exact ne_of_distinct_heads " " "i" (by decide)
        (prefix_lit_append _ _ (by decide)) (by decide) (by decide)
  constructor
  · rw [hpPortLines_mem_iff]
    constructor
    · rintro (h | h | h | h)
      · exact absurd h (hhead _ (Or.inl rfl))
      · exact absurd h (hp_poe_notin_mode vlans cfg _ (Or.inl rfl))
      · exact (hpPoeLines_mem supports cfg.poe).1.mp h
      · exact absurd h (by decide)
    · intro hs
      exact Or.inr (Or.inr (Or.inl ((hpPoeLines_mem supports cfg.poe).1.mpr hs)))
  · rw [hpPortLines_mem_iff]
    constructor
    · rintro (h | h | h | h)
      · exact absurd h (hhead _ (Or.inr rfl))
      · exact absurd h (hp_poe_notin_mode vlans cfg _ (Or.inr rfl))
      · exact (hpPoeLines_mem supports cfg.poe).2.mp h
      · exact absurd h (by decide)
    · intro hs
      exact Or.inr (Or.inr (Or.inl ((hpPoeLines_mem supports cfg.poe).2.mpr hs)))

/-- Every Juniper mode line starts with `set interfaces `. -/
theorem juniperModeLines_start (vlans : List (Nat × String)) (p : Nat) (cfg : PortCfg) :
    ∀ l ∈ juniperModeLines vlans p cfg, "set i".data <+: l.data := by
  intro l hl
  unfold juniperModeLines at hl
  split_ifs at hl
  · simp only [List.mem_singleton] at hl
    subst hl
    exact prefix_lit_append _ _ (by decide)
  · rcases hv : pyTruthyNat cfg.vlan with _ | v <;> rw [hv] at hl
    · cases hl
    · rcases List.mem_cons.mp hl with rfl | hl
      · exact prefix_lit_append _ _ (by decide)
      · simp only [List.mem_singleton] at hl
        subst hl
        exact prefix_lit_append _ _ (by decide)
  · rcases List.mem_cons.mp hl with rfl | hl
    · exact prefix_lit_append _ _ (by decide)
    · obtain ⟨kv, hkv, rfl⟩ := List.mem_map.mp hl
      exact prefix_lit_append _ _ (by decide)
  · cases hl

/-- Neither Juniper PoE directive ever occurs among the mode lines (PoE lines
start with `set poe`, mode lines with `set interfaces`). -/
theorem juniper_poe_notin_mode (vlans : List (Nat × String)) (p q : Nat) (cfg : PortCfg)
    (x : String) (hx : x = "set poe interface " ++ (juniperIf q ++ " enable") ∨
      x = "set poe interface " ++ (juniperIf q ++ " disable")) :
    x ∉ juniperModeLines vlans p cfg := by
  intro hmem
  have hi := juniperModeLines_start vlans p cfg x hmem
  have hp2 : "set p".data <+: x.data := by
    rcases hx with rfl | rfl <;> exact prefix_lit_append _ _ (by decide)
  exact absurd (prefix_unique hi hp2 (by decide)) (by decide)

/-- Membership of the Juniper PoE directives in the PoE segment. -/
theorem juniperPoeLines_mem (supports poe : Bool) (p : Nat) :
    (("set poe interface " ++ (juniperIf p ++ " enable")) ∈ juniperPoeLines supports poe p ↔
      (supports = true ∧ poe = true)) ∧
    (("set poe interface " ++ (juniperIf p ++ " disable")) ∈ juniperPoeLines supports poe p ↔
      (supports = true ∧ poe = false)) := by
  have hne : ("set poe interface " ++ (juniperIf p ++ " enable")) ≠
      ("set poe interface " ++ (juniperIf p ++ " disable")) :=
    append_right_ne (append_right_ne (by decide))
  cases supports <;> cases poe <;>
    simp [juniperPoeLines, hne, hne.symm]

/-- A Juniper PoE directive is in the port block iff PoE is supported and the
port flag has the matching polarity. -/
theorem juniper_poe_block_iff (vlans : List (Nat × String)) (supports : Bool)
    (p : Nat) (cfg : PortCfg) :
    (("set poe interface " ++ (juniperIf p ++ " enable")) ∈
        juniperPortLines vlans supports p cfg ↔ (supports = true ∧ cfg.poe = true)) ∧
    (("set poe interface " ++ (juniperIf p ++ " disable")) ∈
        juniperPortLines vlans supports p cfg ↔ (supports = true ∧ cfg.poe = false)) := by
  unfold juniperPortLines
  constructor
  · rw [List.mem_append]
    constructor
    · rintro (h | h)
      · exact absurd h (juniper_poe_notin_mode vlans p p cfg _ (Or.inl rfl))
      · exact (juniperPoeLines_mem supports cfg.poe p).1.mp h
    · intro hs
      exact Or.inr ((juniperPoeLines_mem supports cfg.poe p).1.mpr hs)
  · rw [List.mem_append]
    constructor
    · rintro (h | h)
      · exact absurd h (juniper_poe_notin_mode vlans p p cfg _ (Or.inr rfl))
      · exact (juniperPoeLines_mem supports cfg.poe p).2.mp h
    · intro hs
      exact Or.inr ((juniperPoeLines_mem supports cfg.poe p).2.mpr hs)

/-- Every Aruba mode line is one of the four shapes of the chain. -/
theorem arubaModeLines_shape (vlans : List (Nat × String)) (cfg : PortCfg) :
    ∀ l ∈ arubaModeLines vlans cfg,
      l = " disable" ∨ l = " trunk" ∨ (∃ v : Nat, l = " vlan access " ++ toString v) ∨
      ∃ v : Nat, l = " trunk allowed vlan " ++ toString v := by
  intro l hl
  unfold arubaModeLines at hl
  split_ifs at hl
  · simp only [List.mem_singleton] at hl
    exact Or.inl hl
  · rcases hv : pyTruthyNat cfg.vlan with _ | v <;> rw [hv] at hl
    · cases hl
    · simp only [List.mem_singleton] at hl
      exact Or.inr (Or.inr (Or.inl ⟨v, hl⟩))
  · rcases List.mem_cons.mp hl with rfl | hl
    · exact Or.inr (Or.inl rfl)
    · obtain ⟨kv, hkv, rfl⟩ := List.mem_map.mp hl
      exact Or.inr (Or.inr (Or.inr ⟨kv.1, rfl⟩))
  · cases hl

/-- Neither Aruba PoE directive ever occurs among the mode lines. -/
theorem aruba_poe_notin_mode (vlans : List (Nat × String)) (cfg : PortCfg) (x : String)
    (hx : x = " poe-max-power 30" ∨ x = " no poe") : x ∉ arubaModeLines vlans cfg := by
  intro hmem
  rcases arubaModeLines_shape vlans cfg x hmem with h | h | ⟨v, h⟩ | ⟨v, h⟩ <;>
    rcases hx with rfl | rfl
  · exact absurd h (by decide)
  · exact absurd h (by decide)
  · exact absurd h (by decide)
  · exact absurd h (by decide)
  · exact absurd h
      (ne_of_distinct_heads " p" " v" (by decide)
        (prefix_lit_append _ _ (by decide)) (by decide) (by decide))
  · exact absurd h
      (ne_of_distinct_heads " n" " v" (by decide)
        (prefix_lit_append _ _ (by decide)) (by decide) (by decide))
  · exact absurd h
      (ne_of_distinct_heads " p" " t" (by decide)
        (prefix_lit_append _ _ (by decide)) (by decide) (by decide))
  · exact absurd h
      (ne_of_distinct_heads " n" " t" (by decide)
        (prefix_lit_append _ _ (by decide)) (by decide) (by decide))

/-- Membership of the Aruba PoE directives in the PoE segment. -/
theorem arubaPoeLines_mem (supports poe : Bool) :
    ((" poe-max-power 30" ∈ arubaPoeLines supports poe) ↔ (supports = true ∧ poe = true)) ∧
    ((" no poe" ∈ arubaPoeLines supports poe) ↔ (supports = true ∧ poe = false)) := by
  cases supports <;> cases poe <;> simp [arubaPoeLines]

/-- Flattened membership in an Aruba port block. -/
theorem arubaPortLines_mem_iff (vlans : List (Nat × String)) (supports : Bool)
    (p : Nat) (cfg : PortCfg) (x : String) :
    x ∈ arubaPortLines vlans supports p cfg ↔
      (x = "interface " ++ toString p ∨ x ∈ arubaModeLines vlans cfg ∨
       x ∈ arubaPoeLines supports cfg.poe ∨ x = "exit") := by
  unfold arubaPortLines
  simp [List.mem_cons, List.mem_append, or_assoc]

/-- An Aruba PoE directive is in the port block iff PoE is supported and the
port flag has the matching polarity. -/
theorem aruba_poe_block_iff (vlans : List (Nat × String)) (supports : Bool)
    (p : Nat) (cfg : PortCfg) :
    ((" poe-max-power 30" ∈ arubaPortLines vlans supports p cfg) ↔
      (supports = true ∧ cfg.poe = true)) ∧
    ((" no poe" ∈ arubaPortLines vlans supports p cfg) ↔
      (supports = true ∧ cfg.poe = false)) := by
  have hhead : ∀ x : String, x = " poe-max-power 30" ∨ x = " no poe" →
      x ≠ "interface " ++ toString p := by
    rintro x (rfl | rfl) <;>
      exact ne_of_distinct_heads " " "i" (by decide)
        (prefix_lit_append _ _ (by decide)) (by decide) (by decide)
  constructor
  · rw [arubaPortLines_mem_iff]
    constructor
    · rintro (h | h | h | h)
      · exact absurd h (hhead _ (Or.inl rfl))
      · exact absurd h (aruba_poe_notin_mode vlans cfg _ (Or.inl rfl))
      · exact (arubaPoeLines_mem supports cfg.poe).1.mp h
      · exact absurd h (by decide)
    · intro hs
      exact Or.inr (Or.inr (Or.inl ((arubaPoeLines_mem supports cfg.poe).1.mpr hs)))
  · rw [arubaPortLines_mem_iff]
    constructor
    · rintro (h | h | h | h)
      · exact absurd h (hhead _ (Or.inr rfl))
      · exact absurd h (aruba_poe_notin_mode vlans cfg _ (Or.inr rfl))
      · exact (arubaPoeLines_mem supports cfg.poe).2.mp h
      · exact absurd h (by decide)
    · intro hs
      exact Or.inr (Or.inr (Or.inl ((arubaPoeLines_mem supports cfg.poe).2.mpr hs)))

/-- Every Alcatel admin-state line is one of its two literal forms. -/
theorem alcatelAdminLines_shape (cfg : PortCfg) :
    ∀ l ∈ alcatelAdminLines cfg,
      l = " admin-state disable" ∨ l = " admin-state enable" := by
  intro l hl
  unfold alcatelAdminLines at hl
  split_ifs at hl <;> simp only [List.mem_singleton] at hl
  · exact Or.inl hl
  · exact Or.inr hl

/-- Every Alcatel access/trunk line is one of the three shapes of the chain. -/
theorem alcatelModeLines_shape (vlans : List (Nat × String)) (cfg : PortCfg) :
    ∀ l ∈ alcatelModeLines vlans cfg,
      l = " spanning-tree auto-edge-port disable" ∨
      (∃ v : Nat, l = " vlan " ++ (toString v ++ " port default")) ∨
      ∃ v : Nat, l = " vlan " ++ (toString v ++ " port") := by
  intro l hl
  unfold alcatelModeLines at hl
  split_ifs at hl
  · rcases hv : pyTruthyNat cfg.vlan with _ | v <;> rw [hv] at hl
    · cases hl
    · simp only [List.mem_singleton] at hl
      exact Or.inr (Or.inl ⟨v, hl⟩)
  · rcases List.mem_cons.mp hl with rfl | hl
    · exact Or.inl rfl
    · obtain ⟨kv, hkv, rfl⟩ := List.mem_map.mp hl
      exact Or.inr (Or.inr ⟨kv.1, rfl⟩)
  · cases hl

/-- No Alcatel PoE directive ever occurs among admin-state or mode lines. -/
theorem alcatel_poe_notin_other (vlans : List (Nat × String)) (cfg : PortCfg) (x : String)
    (hx : x = " power over-ethernet admin-state enable" ∨
          x = " power over-ethernet admin-state disable") :
    x ∉ alcatelAdminLines cfg ∧ x ∉ alcatelModeLines vlans cfg := by
  constructor
  · intro hmem
    rcases alcatelAdminLines_shape cfg x hmem with h | h <;>
      rcases hx with rfl | rfl <;> exact absurd h (by decide)
  · intro hmem
    rcases alcatelModeLines_shape vlans cfg x hmem with h | ⟨v, h⟩ | ⟨v, h⟩ <;>
      rcases hx with rfl | rfl
    · exact absurd h (by decide)
    · exact absurd h (by decide)
    · exact absurd h
        (ne_of_distinct_heads " p" " v" (by decide)
          (prefix_lit_append _ _ (by decide)) (by decide) (by decide))
    · exact absurd h
        (ne_of_distinct_heads " p" " v" (by decide)
          (prefix_lit_append _ _ (by decide)) (by decide) (by decide))
    · exact absurd h
        (ne_of_distinct_heads " p" " v" (by decide)
          (prefix_lit_append _ _ (by decide)) (by decide) (by decide))
    · exact absurd h
        (ne_of_distinct_heads " p" " v" (by decide)
          (prefix_lit_append _ _ (by decide)) (by decide) (by decide))

/-- Membership of the Alcatel PoE polarity directives in the PoE segment. -/
theorem alcatelPoeLines_mem (supports poe : Bool) :
    ((" power over-ethernet admin-state enable" ∈ alcatelPoeLines supports poe) ↔
      (supports = true ∧ poe = true)) ∧
    ((" power over-ethernet admin-state disable" ∈ alcatelPoeLines supports poe) ↔
      (supports = true ∧ poe = false)) := by
  cases supports <;> cases poe <;> simp [alcatelPoeLines]

/-- Flattened membership in an Alcatel port block. -/
theorem alcatelPortLines_mem_iff (vlans : List (Nat × String)) (supports : Bool)
    (p : Nat) (cfg : PortCfg) (x : String) :
    x ∈ alcatelPortLines vlans supports p cfg ↔
      (x = "interfaces port 1/1/" ++ toString p ∨ x ∈ alcatelAdminLines cfg ∨
       x ∈ alcatelModeLines vlans cfg ∨ x ∈ alcatelPoeLines supports cfg.poe ∨
       x = " exit") := by
  unfold alcatelPortLines
  simp [List.mem_cons, List.mem_append, or_assoc]

/-- An Alcatel PoE polarity directive is in the port block iff PoE is
supported and the port flag has the matching polarity. -/
theorem alcatel_poe_block_iff (vlans : List (Nat × String)) (supports : Bool)
    (p : Nat) (cfg : PortCfg) :
    ((" power over-ethernet admin-state enable" ∈ alcatelPortLines vlans supports p cfg) ↔
      (supports = true ∧ cfg.poe = true)) ∧
    ((" power over-ethernet admin-state disable" ∈ alcatelPortLines vlans supports p cfg) ↔
      (supports = true ∧ cfg.poe = false)) := by
  have hhead : ∀ x : String,
      x = " power over-ethernet admin-state enable" ∨
      x = " power over-ethernet admin-state disable" →
      x ≠ "interfaces port 1/1/" ++ toString p := by
    rintro x (rfl | rfl) <;>
      exact ne_of_distinct_heads " " "i" (by decide)
        (prefix_lit_append _ _ (by decide)) (by decide) (by decide)
  constructor
  · rw [alcatelPortLines_mem_iff]
    constructor
    · rintro (h | h | h | h | h)
      · exact absurd h (hhead _ (Or.inl rfl))
      · exact absurd h (alcatel_poe_notin_other vlans cfg _ (Or.inl rfl)).1
      · exact absurd h (alcatel_poe_notin_other vlans cfg _ (Or.inl rfl)).2
      · exact (alcatelPoeLines_mem supports cfg.poe).1.mp h
      · exact absurd h (by decide)
    · intro hs
      exact Or.inr (Or.inr (Or.inr (Or.inl
        ((alcatelPoeLines_mem supports cfg.poe).1.mpr hs))))
  · rw [alcatelPortLines_mem_iff]
    constructor
    · rintro (h | h | h | h | h)
      · exact absurd h (hhead _ (Or.inr rfl))
      · exact absurd h (alcatel_poe_notin_other vlans cfg _ (Or.inr rfl)).1
      · exact absurd h (alcatel_poe_notin_other vlans cfg _ (Or.inr rfl)).2
      · exact (alcatelPoeLines_mem supports cfg.poe).2.mp h
      · exact absurd h (by decide)
    · intro hs
      exact Or.inr (Or.inr (Or.inr (Or.inl
        ((alcatelPoeLines_mem supports cfg.poe).2.mpr hs))))

/-- Brand dispatch: a brand lowercasing to `cisco` selects the Cisco renderer. -/
theorem generate_config_cisco (s : Switch) (hb : pyLower s.brand = "cisco") :
    generate_config s = ciscoLines s := by
  unfold generate_config
  rw [hb, if_pos rfl]

/-- Brand dispatch: a brand lowercasing to `hp` selects the HP renderer. -/
theorem generate_config_hp (s : Switch) (hb : pyLower s.brand = "hp") :
    generate_config s = hpLines s := by
  unfold generate_config
  rw [hb, if_neg (by decide), if_pos rfl]

/-- Brand dispatch: a brand lowercasing to `juniper` selects the Juniper
renderer. -/
theorem generate_config_juniper (s : Switch) (hb : pyLower s.brand = "juniper") :
    generate_config s = juniperLines s := by
  unfold generate_config
  rw [hb, if_neg (by decide), if_neg (by decide), if_pos rfl]

/-- Brand dispatch: a brand lowercasing to `aruba` selects the Aruba renderer. -/
theorem generate_config_aruba (s : Switch) (hb : pyLower s.brand = "aruba") :
    generate_config s = arubaLines s := by
  unfold generate_config
  rw [hb, if_neg (by decide), if_neg (by decide), if_neg (by decide), if_pos rfl]

/-- Brand dispatch: a brand lowercasing to `alcatel` selects the Alcatel
renderer. -/
theorem generate_config_alcatel (s : Switch) (hb : pyLower s.brand = "alcatel") :
    generate_config s = alcatelLines s := by
  unfold generate_config
  rw [hb, if_neg (by decide), if_neg (by decide), if_neg (by decide),
    if_neg (by decide), if_pos rfl]

/-- Decoding a dict-level state preserves the brand. -/
theorem decodeSwitch_brand {sd : SwitchD} {sw : Switch}
    (h : decodeSwitch sd = some sw) : sw.brand = sd.brand := by
  unfold decodeSwitch at h
  cases hp2 : decodePorts sd.ports with
  | none => rw [hp2] at h; cases h
  | some ps =>
    cases hu2 : decodeUsers sd.ssh_users with
    | none => rw [hp2, hu2] at h; cases h
    | some us =>
      rw [hp2, hu2] at h
      cases h
      rfl

/-- A brand outside the five recognized renderers leaves the line list empty. -/
theorem generate_config_unknown_brand (sw : Switch)
    (hb : pyLower sw.brand ∉ (["cisco", "hp", "juniper", "aruba", "alcatel"] : List String)) :
    generate_config sw = [] := by
  simp only [List.mem_cons, List.not_mem_nil, or_false, not_or] at hb
  obtain ⟨h1, h2, h3, h4, h5⟩ := hb
  unfold generate_config
  rw [if_neg h1, if_neg h2, if_neg h3, if_neg h4, if_neg h5]

/-! Claim theorems. -/

/-- C9: for a Cisco switch with VLAN 10 named `Data`, port 1 in access mode
on VLAN 10 and PoE unsupported, the generated configuration contains the
lines `vlan 10`, ` name Data`, `interface GigabitEthernet0/1`,
` switchport mode access` and ` switchport access vlan 10`, and contains no
PoE line. -/
theorem c9_cisco_scenario :
    "vlan 10" ∈ generate_config sC9 ∧
    " name Data" ∈ generate_config sC9 ∧
    "interface GigabitEthernet0/1" ∈ generate_config sC9 ∧
    " switchport mode access" ∈ generate_config sC9 ∧
    " switchport access vlan 10" ∈ generate_config sC9 ∧
    sC9.supports_poe = false ∧
    " power inline auto" ∉ generate_config sC9 ∧
    " power inline never" ∉ generate_config sC9 := by decide

/-- C1 (code bug evaluation): invoking the TFTP upload with the module
available and an unreachable target returns the reachability failure and
stops with no staging file and no running server, but the staging directory
created by `tempfile.mkdtemp()` BEFORE the probe survives the call: in the
`finally` block `os.remove(config_path)` raises (the file was never written),
the shared `except: pass` swallows it, and `os.rmdir(temp_dir)` is skipped. -/
theorem c1_staging_dir_leak :
    (upload_config_via_tftp wProbeFail).result =
      (false, "Le switch 192.0.2.1 n\x27est pas accessible. Vérifiez la connexion.") ∧
    (upload_config_via_tftp wProbeFail).fs.serverRunning = false ∧
    (upload_config_via_tftp wProbeFail).fs.fileExists = false ∧
    (upload_config_via_tftp wProbeFail).fs.dirExists = true := by decide

/-- C2 (counterexample): on a probe-failing invocation the trace already
contains `mkdtemp` — the creation of a temporary directory, a filesystem
operation — strictly before the connectivity probe, refuting the claim that
no temporary file or directory is created before the probe result is known. -/
theorem c2_counterexample :
    wProbeFail.tftp_available = true ∧ wProbeFail.reachable = false ∧
    (upload_config_via_tftp wProbeFail).result.1 = false ∧
    (upload_config_via_tftp wProbeFail).trace = [TftpEvent.mkdtemp, TftpEvent.probe] ∧
    TftpEvent.mkdtemp ∈
      (upload_config_via_tftp wProbeFail).trace.takeWhile
        (fun e => e != TftpEvent.probe) := by decide

/-- C2 (amended): when the module is available and the connectivity probe
fails, the call returns `(false, reachability message)`, the staging FILE is
never written (no `writeFile` event, no surviving file), and the only
filesystem operation preceding the probe is the creation of the staging
directory by `tempfile.mkdtemp()` — which, contrary to the claim as stated,
happens before the probe. -/
theorem c2_probe_failure_behavior (w : TftpWorld)
    (ha : w.tftp_available = true) (hr : w.reachable = false) :
    (upload_config_via_tftp w).result =
      (false, "Le switch " ++ (w.switch_ip ++ " n\x27est pas accessible. Vérifiez la connexion.")) ∧
    TftpEvent.writeFile ∉ (upload_config_via_tftp w).trace ∧
    (upload_config_via_tftp w).fs.fileExists = false ∧
    (upload_config_via_tftp w).trace = [TftpEvent.mkdtemp, TftpEvent.probe] := by
  unfold upload_config_via_tftp
  rw [ha, hr]
  simp

/-- Witness for C2 at a concrete world. -/
theorem c2_probe_failure_behavior_witness :
    (upload_config_via_tftp wProbeFail).result =
      (false, "Le switch " ++ (wProbeFail.switch_ip ++ " n\x27est pas accessible. Vérifiez la connexion.")) ∧
    TftpEvent.writeFile ∉ (upload_config_via_tftp wProbeFail).trace ∧
    (upload_config_via_tftp wProbeFail).fs.fileExists = false ∧
    (upload_config_via_tftp wProbeFail).trace = [TftpEvent.mkdtemp, TftpEvent.probe] :=
  c2_probe_failure_behavior wProbeFail (by decide) (by decide)

/-- C7: if the cancellation flag, read once per line boundary and never
flipping back to true once false, reads true before each of the first `k`
lines and false at the k-th read, then exactly the first `k` lines are
written to the serial port — lines `k+1..n` never are — and the completion
callback is not invoked (the post-loop `if self.on_completed and
self.is_sending` check re-reads the cleared flag). -/
theorem c7_cancellation (lines : List String) (obs : Nat → Bool) (k : Nat)
    (hmono : ∀ i, obs (i + 1) = true → obs i = true)
    (hbefore : ∀ i, i < k → obs i = true)
    (hk : obs k = false) (hlen : k ≤ lines.length) :
    send_config_thread lines obs = (lines.take k, false) :=
  sendFrom_cancelled lines obs k hmono hbefore hk hlen

/-- Concrete cancellation-flag schedule: true for the first two reads. -/
def c7obs : Nat → Bool := fun i => decide (i < 2)

/-- Concrete four-line configuration. -/
def c7lines : List String := ["enable", "configure terminal", "hostname X", "exit"]

/-- Witness for C7: cancelling after line 2 of 4 writes exactly the first two
lines and never invokes the completion callback. -/
theorem c7_cancellation_witness :
    send_config_thread c7lines c7obs = (c7lines.take 2, false) :=
  c7_cancellation c7lines c7obs 2
    (fun i hi => decide_eq_true (Nat.lt_of_succ_lt (of_decide_eq_true hi)))
    (fun i hi => decide_eq_true hi)
    (by decide) (by decide)

/-- C5: for every VLAN map, PoE-support flag, port number and port entry, and
for each of the five vendor renderers, the enable-polarity PoE line is in the
port block iff PoE is supported and the port `poe` flag is set, and the
disable-polarity PoE line is in the block iff PoE is supported and the flag
is clear — so a PoE line appears iff `supports_poe` holds, is never omitted
when it holds, and its polarity matches the flag exactly. -/
theorem c5_poe_lines_iff (vlans : List (Nat × String)) (supports : Bool)
    (p : Nat) (cfg : PortCfg) :
    ((" power inline auto" ∈ ciscoPortLines supports p cfg) ↔
      (supports = true ∧ cfg.poe = true)) ∧
    ((" power inline never" ∈ ciscoPortLines supports p cfg) ↔
      (supports = true ∧ cfg.poe = false)) ∧
    ((" poe enable" ∈ hpPortLines vlans supports p cfg) ↔
      (supports = true ∧ cfg.poe = true)) ∧
    ((" poe disable" ∈ hpPortLines vlans supports p cfg) ↔
      (supports = true ∧ cfg.poe = false)) ∧
    (("set poe interface " ++ (juniperIf p ++ " enable")) ∈
        juniperPortLines vlans supports p cfg ↔ (supports = true ∧ cfg.poe = true)) ∧
    (("set poe interface " ++ (juniperIf p ++ " disable")) ∈
        juniperPortLines vlans supports p cfg ↔ (supports = true ∧ cfg.poe = false)) ∧
    ((" poe-max-power 30" ∈ arubaPortLines vlans supports p cfg) ↔
      (supports = true ∧ cfg.poe = true)) ∧
    ((" no poe" ∈ arubaPortLines vlans supports p cfg) ↔
      (supports = true ∧ cfg.poe = false)) ∧
    ((" power over-ethernet admin-state enable" ∈ alcatelPortLines vlans supports p cfg) ↔
      (supports = true ∧ cfg.poe = true)) ∧
    ((" power over-ethernet admin-state disable" ∈ alcatelPortLines vlans supports p cfg) ↔
      (supports = true ∧ cfg.poe = false)) :=
  ⟨(cisco_poe_block_iff supports p cfg).1, (cisco_poe_block_iff supports p cfg).2,
   (hp_poe_block_iff vlans supports p cfg).1, (hp_poe_block_iff vlans supports p cfg).2,
   (juniper_poe_block_iff vlans supports p cfg).1,
   (juniper_poe_block_iff vlans supports p cfg).2,
   (aruba_poe_block_iff vlans supports p cfg).1, (aruba_poe_block_iff vlans supports p cfg).2,
   (alcatel_poe_block_iff vlans supports p cfg).1,
   (alcatel_poe_block_iff vlans supports p cfg).2⟩

/-- C6: on every state reachable through the model mutators, every partial
(exception-raising) dictionary access performed by the renderers succeeds —
`generate_config` never raises — and a brand outside the five recognized
renderers yields the empty line sequence rather than an error. -/
theorem c6_generator_never_raises (sd : SwitchD) (h : ReachableD sd) :
    ∃ sw, decodeSwitch sd = some sw ∧
      (pyLower sd.brand ∉ (["cisco", "hp", "juniper", "aruba", "alcatel"] : List String) →
        generate_config sw = []) := by
  obtain ⟨ps, hps⟩ := decodePorts_isSome (reachable_ports_shape h)
  have hu := reachable_users_nil h
  have hd : ∃ sw, decodeSwitch sd = some sw := by
    unfold decodeSwitch
    rw [hps, hu]
    exact ⟨_, rfl⟩
  obtain ⟨sw, hsw⟩ := hd
  refine ⟨sw, hsw, fun hb => generate_config_unknown_brand sw ?_⟩
  rw [decodeSwitch_brand hsw]
  exact hb

/-- Witness for C6 at a concrete reachable state of unrecognized brand. -/
theorem c6_generator_never_raises_witness :
    (decodeSwitch sdC6).isSome = true ∧
    generate_config ((decodeSwitch sdC6).getD (Switch.init "x" "y" tEmpty)) = [] := by
  obtain ⟨sw, hsw, hgen⟩ := c6_generator_never_raises sdC6
    (ReachableD.set_port_config (ReachableD.init "brocade" "icx" tEmpty)
      1 "access" (some 10) false)
  rw [hsw]
  exact ⟨rfl, hgen (by decide)⟩

/-- C10: on every state reachable through the model mutators, every port
entry is exactly the three-key dict `{"mode": ..., "vlan": ..., "poe": ...}` built
by `set_port_config`, and every port-entry access performed by the renderers
(`settings["mode"]`, `settings.get("vlan")`, `settings.get("poe")`) is
defined on it. -/
theorem c10_port_entry_shape (sd : SwitchD) (h : ReachableD sd) :
    ∀ p e, (p, e) ∈ sd.ports →
      e.map Prod.fst = ["mode", "vlan", "poe"] ∧
      (decodePortEntry e).isSome = true := by
  intro p e he
  obtain ⟨m, v, b, rfl⟩ := reachable_ports_shape h p e he
  exact ⟨rfl, rfl⟩

/-- Witness for C10 at a concrete reachable state and port entry. -/
theorem c10_port_entry_shape_witness :
    (portEntryOf "trunk" none true).map Prod.fst = ["mode", "vlan", "poe"] ∧
    (decodePortEntry (portEntryOf "trunk" none true)).isSome = true :=
  c10_port_entry_shape sdC10
    (ReachableD.set_port_config
      (ReachableD.add_vlan (ReachableD.init "cisco" "c2960" tEmpty) 10 "Data")
      2 "trunk" none true)
    2 (portEntryOf "trunk" none true) (by decide)

/-- C3 (counterexample): for a Cisco switch whose template has one default
command, that command is emitted at index 3, immediately BEFORE the
spanning-tree block at index 4, and never occurs after it — refuting the
claim that Cisco emits its STP, DHCP-snooping, SNMP and SSH blocks before
the `default_commands` appending step. -/
theorem c3_counterexample :
    sC3.template.default_commands = some ["ntp server 10.0.0.1"] ∧
    (generate_config sC3)[3]? = some "ntp server 10.0.0.1" ∧
    (generate_config sC3)[4]? = some "spanning-tree mode rapid-pvst" ∧
    "ntp server 10.0.0.1" ∉ (generate_config sC3).drop 4 := by decide

/-- C3 (amended): for every Cisco-brand switch whose template has
`default_commands`, the generated sequence places the substituted default
commands after the VLAN-interface blocks and BEFORE the spanning-tree,
DHCP-snooping, SNMP and SSH blocks, which always follow them (the
spanning-tree block is never empty); only Alcatel appends `default_commands`
at the very end. -/
theorem c3_cisco_defaults_position (s : Switch) (cmds : List String)
    (hb : pyLower s.brand = "cisco") (hc : s.template.default_commands = some cmds) :
    (∃ pre, generate_config s =
      pre ++ (cmds.map (fun c => pyReplace c "\x7bhostname\x7d" s.hostname) ++
      (ciscoStpLines s ++ (["ip dhcp snooping", "ip dhcp snooping vlan all"] ++
       (ciscoSnmpLines s ++ ciscoSshLines s))))) ∧
    ciscoStpLines s ≠ [] := by
  constructor
  · refine ⟨["enable", "configure terminal", "hostname " ++ s.hostname] ++
      s.vlans.flatMap (fun kv => ["vlan " ++ toString kv.1, " name " ++ kv.2, "!"]) ++
      s.ports.flatMap (fun kv => ciscoPortLines s.supports_poe kv.1 kv.2) ++
      s.vlan_interfaces.flatMap (fun kv => ciscoVlanIfLines kv.1 kv.2), ?_⟩
    rw [generate_config_cisco s hb]
    unfold ciscoLines defaultCmdLines
    rw [hc]
    simp [List.append_assoc]
  · unfold ciscoStpLines
    split <;> simp

/-- Witness for C3 (amended) at the concrete Cisco switch `sC3`. -/
theorem c3_cisco_defaults_position_witness :
    (∃ pre, generate_config sC3 =
      pre ++ (["ntp server 10.0.0.1"].map
        (fun c => pyReplace c "\x7bhostname\x7d" sC3.hostname) ++
      (ciscoStpLines sC3 ++ (["ip dhcp snooping", "ip dhcp snooping vlan all"] ++
       (ciscoSnmpLines sC3 ++ ciscoSshLines sC3))))) ∧
    ciscoStpLines sC3 ≠ [] :=
  c3_cisco_defaults_position sC3 ["ntp server 10.0.0.1"] rfl rfl

/-- C4 (counterexample): for a Juniper switch with VLAN 10 named `Data` and a
trunk port, no line of the port block mentions the VLAN id 10 — the Juniper
renderer references trunk VLANs by NAME only — refuting the claim that the
Juniper output references every VLAN id within the port block. -/
theorem c4_counterexample :
    c4cfg.mode = "trunk" ∧ (10, "Data") ∈ c4vlans ∧
    ∀ l ∈ juniperPortLines c4vlans false 1 c4cfg, ¬ ("10".data <:+: l.data) := by decide

/-- C4 (amended): for every model with a trunk-mode port, the HP, Aruba and
Alcatel port blocks reference every VLAN id of the VLAN map (HP inside its
comma-joined `tagged vlan` line, Aruba and Alcatel with one line per id),
the Juniper block references every VLAN by NAME (not id), and the Cisco
block consists of a single trunk-mode line with no per-VLAN enumeration
(its shape does not depend on the VLAN map and has at most four lines). -/
theorem c4_trunk_vlan_references (vlans : List (Nat × String)) (supports : Bool)
    (p vid : Nat) (name : String) (cfg : PortCfg)
    (hm : cfg.mode = "trunk") (hv : (vid, name) ∈ vlans) :
    (∃ l ∈ hpPortLines vlans supports p cfg, (toString vid).data <:+: l.data) ∧
    ((" trunk allowed vlan " ++ toString vid) ∈ arubaPortLines vlans supports p cfg) ∧
    ((" vlan " ++ (toString vid ++ " port")) ∈ alcatelPortLines vlans supports p cfg) ∧
    (("set interfaces " ++ (juniperIf p ++
        (" unit 0 family ethernet-switching vlan members " ++ name)))
       ∈ juniperPortLines vlans supports p cfg) ∧
    ciscoModeLines cfg = [" switchport mode trunk"] ∧
    (ciscoPortLines supports p cfg).count " switchport mode trunk" = 1 ∧
    (ciscoPortLines supports p cfg).length ≤ 4 := by
  have hhpmode : hpModeLines vlans cfg =
      [" tagged vlan " ++ joinComma (vlans.map (fun kv => toString kv.1))] := by
    simp [hpModeLines, hm]
  have harmode : arubaModeLines vlans cfg =
      " trunk" :: vlans.map (fun kv => " trunk allowed vlan " ++ toString kv.1) := by
    simp [arubaModeLines, hm]
  have halmode : alcatelModeLines vlans cfg =
      " spanning-tree auto-edge-port disable" ::
        vlans.map (fun kv => " vlan " ++ (toString kv.1 ++ " port")) := by
    simp [alcatelModeLines, hm]
  have hjumode : juniperModeLines vlans p cfg =
      ("set interfaces " ++ (juniperIf p ++ " unit 0 family ethernet-switching port-mode trunk")) ::
        vlans.map (fun kv => "set interfaces " ++ (juniperIf p ++
          (" unit 0 family ethernet-switching vlan members " ++ kv.2))) := by
    simp [juniperModeLines, hm]
  have hcimode : ciscoModeLines cfg = [" switchport mode trunk"] := by
    simp [ciscoModeLines, hm]
  refine ⟨?_, ?_, ?_, ?_, hcimode, ?_, ?_⟩
  · refine ⟨" tagged vlan " ++ joinComma (vlans.map (fun kv => toString kv.1)), ?_, ?_⟩
    · rw [hpPortLines_mem_iff, hhpmode]
      exact Or.inr (Or.inl (List.mem_singleton.mpr rfl))
    · rw [String.data_append]
      have hmm : toString vid ∈ vlans.map (fun kv => toString kv.1) :=
        List.mem_map_of_mem (fun kv => toString kv.1) hv
      exact (infix_joinComma _ _ hmm).trans (List.suffix_append _ _).isInfix
  · rw [arubaPortLines_mem_iff, harmode]
    exact Or.inr (Or.inl (List.mem_cons_of_mem _ (List.mem_map_of_mem _ hv)))
  · rw [alcatelPortLines_mem_iff, halmode]
    exact Or.inr (Or.inr (Or.inl (List.mem_cons_of_mem _ (List.mem_map_of_mem _ hv))))
  · unfold juniperPortLines
    rw [hjumode]
    exact List.mem_append_left _ (List.mem_cons_of_mem _ (List.mem_map_of_mem _ hv))
  · have hnotin : " switchport mode trunk" ∉ ciscoPoeLines supports cfg.poe := by
      unfold ciscoPoeLines
      split_ifs <;> decide
    have hhead : (" switchport mode trunk" ==
        "interface GigabitEthernet0/" ++ toString p) = false := by
      apply beq_eq_false_iff_ne.mpr
      exact ne_of_distinct_heads " " "i" (by decide)
        (prefix_lit_append _ _ (by decide)) (by decide) (by decide)
    have hhead2 : ("interface GigabitEthernet0/" ++ toString p) ≠
        " switchport mode trunk" :=
      ne_of_distinct_heads "i" " " (prefix_lit_append _ _ (by decide))
        (by decide) (by decide) (by decide)
    unfold ciscoPortLines
    rw [hcimode]
    simp [List.count_cons, List.count_append, hhead, hhead2,
      List.count_eq_zero.mpr hnotin]
  · unfold ciscoPortLines ciscoPoeLines
    rw [hcimode]
    split_ifs <;> simp

/-- Witness for C4 (amended) at a concrete trunk port. -/
theorem c4_trunk_vlan_references_witness :
    (∃ l ∈ hpPortLines c4vlans false 1 c4cfg, (toString 10).data <:+: l.data) ∧
    ((" trunk allowed vlan " ++ toString 10) ∈ arubaPortLines c4vlans false 1 c4cfg) ∧
    ((" vlan " ++ (toString 10 ++ " port")) ∈ alcatelPortLines c4vlans false 1 c4cfg) ∧
    (("set interfaces " ++ (juniperIf 1 ++
        (" unit 0 family ethernet-switching vlan members " ++ "Data")))
       ∈ juniperPortLines c4vlans false 1 c4cfg) ∧
    ciscoModeLines c4cfg = [" switchport mode trunk"] ∧
    (ciscoPortLines false 1 c4cfg).count " switchport mode trunk" = 1 ∧
    (ciscoPortLines false 1 c4cfg).length ≤ 4 :=
  c4_trunk_vlan_references c4vlans false 1 10 "Data" c4cfg rfl (by decide)

/-- C8: after `addVlan(vid, name)` with a valid id and nonempty name, the
configuration generated for each of the five vendors contains a VLAN block
carrying both the id and the name (Cisco/HP/Aruba as a `vlan <id>` line plus
a name line, Alcatel with the name quoted, Juniper as a single
`set vlans <name> vlan-id <id>` line). -/
theorem c8_addVlan_rendered (s : Switch) (vid : Nat) (name : String)
    (h1 : 1 ≤ vid) (h2 : vid ≤ 4094) (h3 : name ≠ "") :
    (("vlan " ++ toString vid) ∈ generate_config (add_vlan { s with brand := "cisco" } vid name) ∧
     (" name " ++ name) ∈ generate_config (add_vlan { s with brand := "cisco" } vid name)) ∧
    (("vlan " ++ toString vid) ∈ generate_config (add_vlan { s with brand := "hp" } vid name) ∧
     (" name " ++ name) ∈ generate_config (add_vlan { s with brand := "hp" } vid name)) ∧
    (("set vlans " ++ (name ++ (" vlan-id " ++ toString vid))) ∈
       generate_config (add_vlan { s with brand := "juniper" } vid name)) ∧
    (("vlan " ++ toString vid) ∈ generate_config (add_vlan { s with brand := "aruba" } vid name) ∧
     (" name " ++ name) ∈ generate_config (add_vlan { s with brand := "aruba" } vid name)) ∧
    (("vlan " ++ toString vid) ∈ generate_config (add_vlan { s with brand := "alcatel" } vid name) ∧
     (" name \"" ++ (name ++ "\"")) ∈
       generate_config (add_vlan { s with brand := "alcatel" } vid name)) := by
  have hmem : ∀ b : String, (vid, name) ∈ (add_vlan { s with brand := b } vid name).vlans :=
    fun b => mem_dictInsert_self vid name s.vlans
  refine ⟨⟨?_, ?_⟩, ⟨?_, ?_⟩, ?_, ⟨?_, ?_⟩, ⟨?_, ?_⟩⟩
  · rw [generate_config_cisco (add_vlan { s with brand := "cisco" } vid name) rfl]
    unfold ciscoLines
    have h := mem_flatMap_of_pair ("vlan " ++ toString vid)
      (fun kv => ["vlan " ++ toString kv.1, " name " ++ kv.2, "!"])
      (hmem "cisco") (by simp)
    simp only [List.mem_append]
    tauto
  · rw [generate_config_cisco (add_vlan { s with brand := "cisco" } vid name) rfl]
    unfold ciscoLines
    have h := mem_flatMap_of_pair (" name " ++ name)
      (fun kv => ["vlan " ++ toString kv.1, " name " ++ kv.2, "!"])
      (hmem "cisco") (by simp)
    simp only [List.mem_append]
    tauto
  · rw [generate_config_hp (add_vlan { s with brand := "hp" } vid name) rfl]
    unfold hpLines
    have h := mem_flatMap_of_pair ("vlan " ++ toString vid)
      (fun kv => ["vlan " ++ toString kv.1, " name " ++ kv.2, "exit"])
      (hmem "hp") (by simp)
    simp only [List.mem_append]
    tauto
  · rw [generate_config_hp (add_vlan { s with brand := "hp" } vid name) rfl]
    unfold hpLines
    have h := mem_flatMap_of_pair (" name " ++ name)
      (fun kv => ["vlan " ++ toString kv.1, " name " ++ kv.2, "exit"])
      (hmem "hp") (by simp)
    simp only [List.mem_append]
    tauto
  · rw [generate_config_juniper (add_vlan { s with brand := "juniper" } vid name) rfl]
    unfold juniperLines
    have h := mem_flatMap_of_pair ("set vlans " ++ (name ++ (" vlan-id " ++ toString vid)))
      (fun kv => ["set vlans " ++ (kv.2 ++ (" vlan-id " ++ toString kv.1))])
      (hmem "juniper") (by simp)
    simp only [List.mem_append]
    tauto
  · rw [generate_config_aruba (add_vlan { s with brand := "aruba" } vid name) rfl]
    unfold arubaLines
    have h := mem_flatMap_of_pair ("vlan " ++ toString vid)
      (fun kv => ["vlan " ++ toString kv.1, " name " ++ kv.2, "exit"])
      (hmem "aruba") (by simp)
    simp only [List.mem_append]
    tauto
  · rw [generate_config_aruba (add_vlan { s with brand := "aruba" } vid name) rfl]
    unfold arubaLines
    have h := mem_flatMap_of_pair (" name " ++ name)
      (fun kv => ["vlan " ++ toString kv.1, " name " ++ kv.2, "exit"])
      (hmem "aruba") (by simp)
    simp only [List.mem_append]
    tauto
  · rw [generate_config_alcatel (add_vlan { s with brand := "alcatel" } vid name) rfl]
    unfold alcatelLines
    have h := mem_flatMap_of_pair ("vlan " ++ toString vid)
      (fun kv => ["vlan " ++ toString kv.1, " name \"" ++ (kv.2 ++ "\""), " exit"])
      (hmem "alcatel") (by simp)
    simp only [List.mem_append]
    tauto
  · rw [generate_config_alcatel (add_vlan { s with brand := "alcatel" } vid name) rfl]
    unfold alcatelLines
    have h := mem_flatMap_of_pair (" name \"" ++ (name ++ "\""))
      (fun kv => ["vlan " ++ toString kv.1, " name \"" ++ (kv.2 ++ "\""), " exit"])
      (hmem "alcatel") (by simp)
    simp only [List.mem_append]
    tauto

/-- Witness for C8 at VLAN 10 named `Data` on a fresh switch. -/
theorem c8_addVlan_rendered_witness :
    (("vlan " ++ toString 10) ∈
       generate_config (add_vlan { Switch.init "x" "y" tEmpty with brand := "cisco" } 10 "Data") ∧
     (" name " ++ "Data") ∈
       generate_config (add_vlan { Switch.init "x" "y" tEmpty with brand := "cisco" } 10 "Data")) ∧
    (("vlan " ++ toString 10) ∈
       generate_config (add_vlan { Switch.init "x" "y" tEmpty with brand := "hp" } 10 "Data") ∧
     (" name " ++ "Data") ∈
       generate_config (add_vlan { Switch.init "x" "y" tEmpty with brand := "hp" } 10 "Data")) ∧
    (("set vlans " ++ ("Data" ++ (" vlan-id " ++ toString 10))) ∈
       generate_config (add_vlan { Switch.init "x" "y" tEmpty with brand := "juniper" } 10 "Data")) ∧
    (("vlan " ++ toString 10) ∈
       generate_config (add_vlan { Switch.init "x" "y" tEmpty with brand := "aruba" } 10 "Data") ∧
     (" name " ++ "Data") ∈
       generate_config (add_vlan { Switch.init "x" "y" tEmpty with brand := "aruba" } 10 "Data")) ∧
    (("vlan " ++ toString 10) ∈
       generate_config (add_vlan { Switch.init "x" "y" tEmpty with brand := "alcatel" } 10 "Data") ∧
     (" name \"" ++ ("Data" ++ "\"")) ∈
       generate_config (add_vlan { Switch.init "x" "y" tEmpty with brand := "alcatel" } 10 "Data")) :=
  c8_addVlan_rendered (Switch.init "x" "y" tEmpty) 10 "Data"
    (by decide) (by decide) (by decide)
